import Mathlib

/-!
# SWTPC 8212 video terminal

A shallow embedding of `src/devices/machine/swtpc8212.cpp` (the terminal) and
`src/devices/bus/rs232/swtpc8212.cpp` (the RS232 port wrapper around it).

The device keeps four bytes of its own (`m_latch_data`, `m_kbd_data`,
`m_printer_data`, `m_printer_data_ready`), reads memories and configuration
ports, owns one timer, and otherwise only calls into collaborating devices
(two PIAs, the UART, the CRTC, the beeper, the printer, the RS232 port).
Every call into a collaborator is recorded, in program order and with the
machine time at which it is made, in `log`; what a collaborator "sees" is
read back from that record.
-/

namespace Swtpc8212

/-! ## Line levels and collaborator calls -/

/-- Inactive level of a signal line in the emulator core. -/
def CLEAR_LINE : Nat := 0

/-- Active level of a signal line in the emulator core. -/
def ASSERT_LINE : Nat := 1

/-- Identifier of the bell timer handed to `device_timer`. -/
def BELL_TIMER_ID : Nat := 0

/-- Calls the terminal makes on its collaborators, one constructor per callee. -/
inductive Call where
  | pia0_cb1_w (state : Nat)
  | pia1_ca1_w (state : Nat)
  | beeper_set_state (state : Nat)
  | printer_output (data : Nat)
  | crtc_set_char_width (width : Nat)
  | uart_dcd_w (state : Nat)
  | uart_dsr_w (state : Nat)
  | uart_ri_w (state : Nat)
  | uart_cts_w (state : Nat)
  | uart_rx_w (state : Nat)
  | output_rxd (state : Nat)
  | output_dcd (state : Nat)
  | output_dsr (state : Nat)
  | output_cts (state : Nat)
  deriving DecidableEq, Repr

/-- State of `swtpc8212_device`, together with the one member that
`swtpc8212_terminal_device` adds (`m_flow_control`). Bytes and line levels
are natural numbers: the header declaring the members is not among the
sources, so a member holds the value assigned to it as it is; handlers
receive bytes (0..255) and line levels (0 or 1). Times are in milliseconds. -/
structure swtpc8212_device where
  m_latch_data : Nat
  m_kbd_data : Nat
  m_printer_data : Nat
  m_printer_data_ready : Nat
  /-- Shared video RAM, 2048 bytes. -/
  m_video_ram : Nat → Nat
  /-- ROM region "chargen1". -/
  m_chargen1 : Nat → Nat
  /-- ROM region "chargen2". -/
  m_chargen2 : Nat → Nat
  /-- ROM region "program". -/
  program : Nat → Nat
  /-- Value read from port "dip_switches". -/
  m_dip_switches : Nat
  /-- Value read from port "config". -/
  m_config : Nat
  /-- Value read from port "one_stop_bit". -/
  m_one_stop_bit : Nat
  /-- Value read from port "flow_control" (terminal wrapper). -/
  m_flow_control : Nat
  /-- Expiry time of the bell timer, `none` while it is not armed. -/
  m_bell_timer : Option Nat
  /-- Current machine time. -/
  now : Nat
  /-- Calls made on collaborators so far, oldest first, with their time. -/
  log : List (Nat × Call)

namespace swtpc8212_device

/-- Record one call on a collaborator at the current machine time. -/
def call (d : swtpc8212_device) (c : Call) : swtpc8212_device :=
  { d with log := d.log ++ [(d.now, c)] }

end swtpc8212_device

/-! ## Reading the record of collaborator calls -/

/-- The calls made between an earlier state `d` and a later state `d'`. -/
def emitted (d d' : swtpc8212_device) : List Call :=
  (d'.log.drop d.log.length).map Prod.snd

/-- The calls made between `d` and `d'`, each with the time it was made at. -/
def emitted_at (d d' : swtpc8212_device) : List (Nat × Call) :=
  d'.log.drop d.log.length

/-- Bytes handed to the printer sink by a sequence of calls. -/
def printer_bytes (cs : List Call) : List Nat :=
  cs.filterMap fun c => match c with
    | .printer_output b => some b
    | _ => none

/-- Levels driven onto PIA1 CA1 by a sequence of calls. -/
def pia1_ca1_levels (cs : List Call) : List Nat :=
  cs.filterMap fun c => match c with
    | .pia1_ca1_w s => some s
    | _ => none

/-- Levels driven onto PIA0 CB1 by a sequence of calls. -/
def pia0_cb1_levels (cs : List Call) : List Nat :=
  cs.filterMap fun c => match c with
    | .pia0_cb1_w s => some s
    | _ => none

/-- The argument of the most recent call picked out by `sel`, if any. -/
def last_driven (sel : Call → Option Nat) (log : List (Nat × Call)) : Option Nat :=
  log.foldl (fun acc e => match sel e.2 with
    | some v => some v
    | none => acc) none

/-- Selects calls of `beeper.set_state`. -/
def sel_beeper : Call → Option Nat
  | .beeper_set_state s => some s
  | _ => none

/-- Selects calls of `pia0.cb1_w`. -/
def sel_pia0_cb1 : Call → Option Nat
  | .pia0_cb1_w s => some s
  | _ => none

/-- Selects calls of `pia1.ca1_w`. -/
def sel_pia1_ca1 : Call → Option Nat
  | .pia1_ca1_w s => some s
  | _ => none

/-- Selects calls of `uart.cts_w`. -/
def sel_uart_cts : Call → Option Nat
  | .uart_cts_w s => some s
  | _ => none

/-- Selects calls of `output_rxd`. -/
def sel_output_rxd : Call → Option Nat
  | .output_rxd s => some s
  | _ => none

/-- Selects calls of `output_dcd`. -/
def sel_output_dcd : Call → Option Nat
  | .output_dcd s => some s
  | _ => none

/-- Selects calls of `output_dsr`. -/
def sel_output_dsr : Call → Option Nat
  | .output_dsr s => some s
  | _ => none

/-- Selects calls of `output_cts`. -/
def sel_output_cts : Call → Option Nat
  | .output_cts s => some s
  | _ => none

/-- Selects calls of `crtc.set_char_width`. -/
def sel_char_width : Call → Option Nat
  | .crtc_set_char_width w => some w
  | _ => none

/-! ## Bit helpers -/

/-- Bit `n` of `x`, as the core's `BIT(x, n)` gives it: `(x >> n) & 1`. -/
def BIT (x n : Nat) : Nat := (x >>> n) &&& 1

/-! ## `swtpc8212_device` -/

namespace swtpc8212_device

/-- `latch_w`: sets the CRTC character width from bit 7 and stores the byte. -/
def latch_w (d : swtpc8212_device) (data : Nat) : swtpc8212_device :=
  let d1 := if BIT data 7 = 0 then d.call (.crtc_set_char_width 9)
            else d.call (.crtc_set_char_width 8)
  { d1 with m_latch_data := data }

/-- `pia0_pa_r`: the value of the "config" port. -/
def pia0_pa_r (d : swtpc8212_device) : Nat := d.m_config

/-- `pia0_pb_r`: the stored keyboard byte. -/
def pia0_pb_r (d : swtpc8212_device) : Nat := d.m_kbd_data

/-- `kbd_put`: stores the byte and strobes PIA0 CB1. -/
def kbd_put (d : swtpc8212_device) (data : Nat) : swtpc8212_device :=
  let d1 := { d with m_kbd_data := data }
  let d2 := d1.call (.pia0_cb1_w ASSERT_LINE)
  let d3 := d2.call (.pia0_cb1_w CLEAR_LINE)
  d3.call (.pia0_cb1_w ASSERT_LINE)

/-- `pia1_pa_w`: stores the printer byte. -/
def pia1_pa_w (d : swtpc8212_device) (data : Nat) : swtpc8212_device :=
  { d with m_printer_data := data }

/-- `pia1_ca1_r`: the printer busy input, always 0. -/
def pia1_ca1_r (_d : swtpc8212_device) : Nat := 0

/-- `pia1_ca2_w`: printer data ready; forwards the byte on a falling edge. -/
def pia1_ca2_w (d : swtpc8212_device) (state : Nat) : swtpc8212_device :=
  let d1 :=
    if d.m_printer_data_ready = 1 ∧ state = 0 then
      let a := d.call (.printer_output d.m_printer_data)
      let b := a.call (.pia1_ca1_w CLEAR_LINE)
      let c := b.call (.pia1_ca1_w ASSERT_LINE)
      c.call (.pia1_ca1_w CLEAR_LINE)
    else d
  { d1 with m_printer_data_ready := state }

/-- `pia1_pb_r`: the value of the "dip_switches" port. -/
def pia1_pb_r (d : swtpc8212_device) : Nat := d.m_dip_switches

/-- `rs232_conn_dcd_w`: forwards the level to the UART. -/
def rs232_conn_dcd_w (d : swtpc8212_device) (state : Nat) : swtpc8212_device :=
  d.call (.uart_dcd_w state)

/-- `rs232_conn_dsr_w`: forwards the level to the UART. -/
def rs232_conn_dsr_w (d : swtpc8212_device) (state : Nat) : swtpc8212_device :=
  d.call (.uart_dsr_w state)

/-- `rs232_conn_ri_w`: forwards the level to the UART. -/
def rs232_conn_ri_w (d : swtpc8212_device) (state : Nat) : swtpc8212_device :=
  d.call (.uart_ri_w state)

/-- `rs232_conn_cts_w`: forwards the level to the UART. -/
def rs232_conn_cts_w (d : swtpc8212_device) (state : Nat) : swtpc8212_device :=
  d.call (.uart_cts_w state)

/-- `rs232_conn_rxd_w`: forwards the level to the UART. -/
def rs232_conn_rxd_w (d : swtpc8212_device) (state : Nat) : swtpc8212_device :=
  d.call (.uart_rx_w state)

/-- `device_reset` of the base device. The firmware patch writes one byte of
the "program" region when the "one_stop_bit" port reads nonzero. -/
def device_reset (d : swtpc8212_device) : swtpc8212_device :=
  let d1 := { d with m_kbd_data := 0 }
  let d2 := d1.call (.pia0_cb1_w ASSERT_LINE)
  let d3 := { d2 with m_latch_data := 0x1f }
  let d4 := d3.call (.beeper_set_state 0)
  let d5 := { d4 with m_printer_data := 0 }
  let d6 := { d5 with m_printer_data_ready := 1 }
  let d7 := d6.call (.pia1_ca1_w CLEAR_LINE)
  if d7.m_one_stop_bit ≠ 0 then
    { d7 with program := fun a => if a = 0x01ad then 0x02 else d7.program a }
  else d7

end swtpc8212_device

/-! ## `swtpc8212_terminal_device` -/

namespace swtpc8212_terminal_device

/-- `output_rxd` of the RS232 port interface: drives the downstream RXD. -/
def output_rxd (d : swtpc8212_device) (state : Nat) : swtpc8212_device :=
  d.call (.output_rxd state)

/-- `output_dcd` of the RS232 port interface: drives the downstream DCD. -/
def output_dcd (d : swtpc8212_device) (state : Nat) : swtpc8212_device :=
  d.call (.output_dcd state)

/-- `output_dsr` of the RS232 port interface: drives the downstream DSR. -/
def output_dsr (d : swtpc8212_device) (state : Nat) : swtpc8212_device :=
  d.call (.output_dsr state)

/-- `output_cts` of the RS232 port interface: drives the downstream CTS. -/
def output_cts (d : swtpc8212_device) (state : Nat) : swtpc8212_device :=
  d.call (.output_cts state)

/-- `input_txd`: data from the remote end goes to the terminal's RXD. -/
def input_txd (d : swtpc8212_device) (state : Nat) : swtpc8212_device :=
  swtpc8212_device.rs232_conn_rxd_w d state

/-- `route_term_rts`: loops the terminal RTS output to the terminal CTS input. -/
def route_term_rts (d : swtpc8212_device) (state : Nat) : swtpc8212_device :=
  swtpc8212_device.rs232_conn_cts_w d state

/-- `route_term_dtr`: connects the terminal DTR output to the remote CTS when
the "flow_control" port reads 1. -/
def route_term_dtr (d : swtpc8212_device) (state : Nat) : swtpc8212_device :=
  if d.m_flow_control = 1 then output_cts d state else d

/-- `swtpc8212_device::write_txd`, with the handler that `device_add_mconfig`
of the terminal wrapper binds to it (`output_rxd`). -/
def write_txd (d : swtpc8212_device) (state : Nat) : swtpc8212_device :=
  output_rxd d state

/-- `swtpc8212_device::write_dtr`, with the handler that `device_add_mconfig`
of the terminal wrapper binds to it (`route_term_dtr`). -/
def write_dtr (d : swtpc8212_device) (state : Nat) : swtpc8212_device :=
  route_term_dtr d state

/-- `swtpc8212_device::write_rts`, with the handler that `device_add_mconfig`
of the terminal wrapper binds to it (`route_term_rts`). -/
def write_rts (d : swtpc8212_device) (state : Nat) : swtpc8212_device :=
  route_term_rts d state

/-- `device_reset` of the terminal wrapper: idle line levels, then the reset
of the base device. -/
def device_reset (d : swtpc8212_device) : swtpc8212_device :=
  let d1 := swtpc8212_device.rs232_conn_cts_w d 0
  let d2 := output_rxd d1 1
  let d3 := output_dcd d2 0
  let d4 := output_dsr d3 0
  let d5 := output_cts d4 0
  swtpc8212_device.device_reset d5

end swtpc8212_terminal_device

/-! ## Bell -/

namespace swtpc8212_device

/-- Modelled from the spec: `emu_timer::reset` belongs to the emulator core's
scheduler, which is not among the sources. The spec describes the bell timer
as one cancelable one-shot action keyed by a logical clock, which a trigger
(re)starts from the fixed duration, re-arming rather than stacking: the one
expiry time is overwritten with the current time plus the duration. -/
def bell_timer_reset (d : swtpc8212_device) (msec : Nat) : swtpc8212_device :=
  { d with m_bell_timer := some (d.now + msec) }

/-- `pia0_ca2_w`: bell strobe; level 0 turns the beeper on and (re)starts the
250 ms timer. -/
def pia0_ca2_w (d : swtpc8212_device) (state : Nat) : swtpc8212_device :=
  if state = 0 then
    let a := d.call (.beeper_set_state 1)
    a.bell_timer_reset 250
  else d

/-- `device_timer`: the bell timer turns the beeper off. -/
def device_timer (d : swtpc8212_device) (id : Nat) : swtpc8212_device :=
  if id = BELL_TIMER_ID then d.call (.beeper_set_state 0) else d

/-- Modelled from the spec: the scheduler of the emulator core is not among
the sources. The spec has the timer fire once after the fixed delay, being a
one-shot with no periodic repetition: letting time pass up to `t` runs
`device_timer` at the expiry time when one is armed and due, disarms the
timer, and leaves the clock at `t`. -/
def run_until (d : swtpc8212_device) (t : Nat) : swtpc8212_device :=
  if t < d.now then d
  else
    match d.m_bell_timer with
    | some e =>
      if e ≤ t then
        let fired := device_timer { d with now := max e d.now, m_bell_timer := none } BELL_TIMER_ID
        { fired with now := t }
      else { d with now := t }
    | none => { d with now := t }

end swtpc8212_device

/-- Whether the beeper is sounding: the state it was last set to is nonzero. -/
def bell_on (d : swtpc8212_device) : Bool :=
  match last_driven sel_beeper d.log with
  | some s => s != 0
  | none => false

/-- Times at which the beeper was switched off in a stretch of the record. -/
def bell_off_times (es : List (Nat × Call)) : List Nat :=
  es.filterMap fun e => match e.2 with
    | .beeper_set_state 0 => some e.1
    | _ => none

/-! ## Row rendering -/

/-- The target bitmap: `bitmap y x` is the 32-bit pixel of row `y`, column `x`. -/
abbrev Bitmap := Nat → Nat → Nat

/-- The assignment `bitmap.pix32(y, x) = v`. -/
def pix32_set (bitmap : Bitmap) (y x v : Nat) : Bitmap :=
  fun y' x' => if y' = y ∧ x' = x then v else bitmap y' x'

/-- Modelled from the spec: the colour constructor `rgb_t(r, g, b)` belongs to
the emulator core and is not among the sources; the spec only tells a
foreground colour and a brighter shade from the blank (0) pixel. It is taken
here as the opaque 32-bit packing of the three 8-bit channels. -/
def rgb_t (r g b : Nat) : Nat :=
  0xff000000 ||| (r <<< 16) ||| (g <<< 8) ||| b

/-- Variables carried round the inner loop of `update_row`. -/
structure BitLoop where
  bitmap : Bitmap
  x : Nat
  data : Nat

namespace swtpc8212_device

/-- The value `font_color` has when it is stored in the bitmap, in the inner
loop of `update_row`. -/
def font_color (dcursor dout intensity : Nat) (de : Int) : Nat :=
  if (dcursor ^^^ dout) ≠ 0 ∧ de ≠ 0 then
    if intensity ≠ 0 then rgb_t 0x10 0xff 0x10 else rgb_t 0x00 0xd0 0x00
  else 0

/-- One pass of the inner loop of `update_row` (`for bit`): one pixel. The
glyph byte `data` is an 8-bit variable, so the shift drops its top bit. -/
def update_row_bit (y hbp dcursor intensity : Nat) (de : Int) (st : BitLoop) : BitLoop :=
  let dout := BIT st.data 7
  { bitmap := pix32_set st.bitmap y (hbp + st.x) (font_color dcursor dout intensity de)
    x := st.x + 1
    data := (st.data <<< 1) % 256 }

/-- One pass of the outer loop of `update_row` (`for column`): one character
cell, carrying the bitmap and the running position `x`. -/
def update_row_column (d : swtpc8212_device) (ma ra y : Nat) (cursor_x de : Int) (hbp : Nat)
    (st : Bitmap × Nat) (column : Nat) : Bitmap × Nat :=
  let chargen := if BIT d.m_latch_data 6 = 0 then d.m_chargen1 else d.m_chargen2
  let code := d.m_video_ram ((ma + column) &&& 0x07ff)
  let dcursor := if (column : Int) = cursor_x then 1 else 0
  let address := if ra < 16 then (code &&& 0x7f) ||| ((ra &&& 0x0f) <<< 7) else 0
  let data := chargen address
  let intensity := BIT code 7
  let r := (List.range 8).foldl (fun s _ => update_row_bit y hbp dcursor intensity de s)
    { bitmap := st.1, x := st.2, data := data }
  -- Gap between characters
  if BIT d.m_latch_data 7 = 0 then (r.bitmap, r.x + 1) else (r.bitmap, r.x)

/-- The loops of `update_row`: the bitmap and the final value of `x`. -/
def update_row_loop (d : swtpc8212_device) (bitmap : Bitmap) (ma ra y x_count : Nat)
    (cursor_x de : Int) (hbp : Nat) : Bitmap × Nat :=
  (List.range x_count).foldl (update_row_column d ma ra y cursor_x de hbp) (bitmap, 0)

/-- `update_row`: draws scanline `y` of the bitmap; the device is returned
along with the bitmap, as the call could have changed either. -/
def update_row (d : swtpc8212_device) (bitmap : Bitmap) (ma ra y x_count : Nat)
    (cursor_x de : Int) (hbp : Nat) : swtpc8212_device × Bitmap :=
  (d, (update_row_loop d bitmap ma ra y x_count cursor_x de hbp).1)

end swtpc8212_device

/-- A terminal before its first reset: every byte and port zero, empty
memories, timer not armed, nothing called yet. -/
def power_on : swtpc8212_device :=
  { m_latch_data := 0, m_kbd_data := 0, m_printer_data := 0, m_printer_data_ready := 0,
    m_video_ram := fun _ => 0, m_chargen1 := fun _ => 0, m_chargen2 := fun _ => 0,
    program := fun _ => 0, m_dip_switches := 0, m_config := 0, m_one_stop_bit := 0,
    m_flow_control := 0, m_bell_timer := none, now := 0, log := [] }

/-- The reset terminal after one complete printer handshake: the byte 0x41
was stored and the ready line fell, so the byte went to the printer. -/
def handshake_done : swtpc8212_device :=
  ((swtpc8212_terminal_device.device_reset power_on).pia1_pa_w 0x41).pia1_ca2_w 0

/-- A bell strobe arriving at time `t`: time passes up to `t`, then PIA0 drives
CA2 low. -/
def trigger_bell_at (d : swtpc8212_device) (t : Nat) : swtpc8212_device :=
  (d.run_until t).pia0_ca2_w 0

/-- Width of a character cell in pixels, as `update_row` steps through it:
eight glyph pixels, and one more position when bit 7 of the latch is clear. -/
def cell_width (d : swtpc8212_device) : Nat :=
  if BIT d.m_latch_data 7 = 0 then 9 else 8

/-- The character code `update_row` reads for column `c`. -/
def cell_code (d : swtpc8212_device) (ma c : Nat) : Nat :=
  d.m_video_ram ((ma + c) &&& 0x07ff)

/-- The glyph byte `update_row` loads for row `ra` of the character `code`. -/
def cell_data (d : swtpc8212_device) (ra code : Nat) : Nat :=
  (if BIT d.m_latch_data 6 = 0 then d.m_chargen1 else d.m_chargen2)
    (if ra < 16 then (code &&& 0x7f) ||| ((ra &&& 0x0f) <<< 7) else 0)

/-- The colour the loops of `update_row` store for bit `b` of column `c`: the
glyph byte has been shifted left `b` times when its top bit is tested. -/
def cell_pixel (d : swtpc8212_device) (ma ra : Nat) (cursor_x de : Int) (c b : Nat) : Nat :=
  swtpc8212_device.font_color (if (c : Int) = cursor_x then 1 else 0)
    (BIT ((cell_data d ra (cell_code d ma c) * 2 ^ b) % 256) 7)
    (BIT (cell_code d ma c) 7) de

/-- A terminal whose first character generator has every dot set. -/
def solid_chargen_terminal : swtpc8212_device :=
  { power_on with m_chargen1 := fun _ => 0xff }

/-- A bitmap with every pixel background (0). -/
def blank_bitmap : Bitmap := fun _ _ => 0

/-- A bitmap with every pixel white. -/
def white_bitmap : Bitmap := fun _ _ => 0x00ffffff

/-! ## Bus address map -/

/-- What an entry of `mem_map` routes an access to. -/
inductive Target where
  | ram
  | pia0
  | crtc_address_w
  | crtc_register
  | latch_w
  | uart
  | pia1
  | video_ram
  | rom (offset : Nat)
  deriving DecidableEq, Repr

/-- One `map(start, end)` line of `mem_map`, with its mirror bits and whether
it handles reads and writes. -/
structure MapEntry where
  addrstart : Nat
  addrend : Nat
  addrmirror : Nat
  readable : Bool
  writable : Bool
  target : Target

/-- The line `map(0x4000, 0x47ff).mirror(0x1800).ram().share(m_video_ram)`. -/
def video_ram_entry : MapEntry :=
  { addrstart := 0x4000, addrend := 0x47ff, addrmirror := 0x1800,
    readable := true, writable := true, target := .video_ram }

/-- `mem_map`: the ten lines of the address map, in source order. -/
def mem_map : List MapEntry :=
  [ { addrstart := 0x0000, addrend := 0x007f, addrmirror := 0,
      readable := true, writable := true, target := .ram },
    { addrstart := 0x0080, addrend := 0x0083, addrmirror := 0,
      readable := true, writable := true, target := .pia0 },
    { addrstart := 0x0088, addrend := 0x0088, addrmirror := 0,
      readable := false, writable := true, target := .crtc_address_w },
    { addrstart := 0x0089, addrend := 0x0089, addrmirror := 0,
      readable := true, writable := true, target := .crtc_register },
    { addrstart := 0x008c, addrend := 0x008c, addrmirror := 0,
      readable := false, writable := true, target := .latch_w },
    { addrstart := 0x0090, addrend := 0x0097, addrmirror := 0,
      readable := true, writable := true, target := .uart },
    { addrstart := 0x0098, addrend := 0x009b, addrmirror := 0,
      readable := true, writable := true, target := .pia1 },
    video_ram_entry,
    { addrstart := 0xb800, addrend := 0xbfff, addrmirror := 0,
      readable := true, writable := false, target := .rom 0 },
    { addrstart := 0xc000, addrend := 0xc7ff, addrmirror := 0x3800,
      readable := true, writable := false, target := .rom 0x800 } ]

/-- Modelled from the spec: how the emulator core matches a bus address
against a map line is not among the sources. The spec calls mirroring a range
that repeats at several base addresses because the decoding is incomplete:
the mirror bits of the 16-bit address are ignored, and what is left must lie
between the start and the end of the line. -/
def MapEntry.claims (e : MapEntry) (a : Nat) : Bool :=
  decide (e.addrstart ≤ a &&& (0xffff ^^^ e.addrmirror) ∧
    a &&& (0xffff ^^^ e.addrmirror) ≤ e.addrend)

/-- Modelled from the spec: the offset into the target of a line that claims
the address, the mirror bits being ignored (emulator core, not among the
sources). -/
def MapEntry.offset (e : MapEntry) (a : Nat) : Nat :=
  (a &&& (0xffff ^^^ e.addrmirror)) - e.addrstart

/-- The targets of all lines of `mem_map` that claim the address. -/
def decode (a : Nat) : List Target :=
  (mem_map.filter fun e => e.claims a).map MapEntry.target

/-- Modelled from the spec: a bus write that the video RAM line claims stores
the byte in the shared video RAM at the offset of the address; the bus
dispatch itself is emulator core, not among the sources. -/
def video_ram_w (d : swtpc8212_device) (a v : Nat) : swtpc8212_device :=
  if video_ram_entry.claims a then
    { d with m_video_ram := fun i => if i = video_ram_entry.offset a then v
                                     else d.m_video_ram i }
  else d

/-- Modelled from the spec: a bus read that the video RAM line claims returns
the byte of the shared video RAM at the offset of the address. -/
def video_ram_r (d : swtpc8212_device) (a : Nat) : Option Nat :=
  if video_ram_entry.claims a then some (d.m_video_ram (video_ram_entry.offset a))
  else none

/-! ## Sequences of events -/

/-- The part of `device_add_mconfig` that acts on a collaborator recorded
here: the CRTC is configured with a character width of 9. -/
def device_add_mconfig (d : swtpc8212_device) : swtpc8212_device :=
  d.call (.crtc_set_char_width 9)

/-- The configured terminal, before its first reset. -/
def configured : swtpc8212_device := device_add_mconfig power_on

/-- The character width the CRTC was last set to. -/
def char_width (d : swtpc8212_device) : Option Nat :=
  last_driven sel_char_width d.log

/-- The events that act on the terminal: bus writes, line changes, key
presses, the passing of time, the timer and the reset. -/
inductive Op where
  | latch_w (data : Nat)
  | kbd_put (data : Nat)
  | pia0_ca2_w (state : Nat)
  | pia1_pa_w (data : Nat)
  | pia1_ca2_w (state : Nat)
  | rs232_conn_dcd_w (state : Nat)
  | rs232_conn_dsr_w (state : Nat)
  | rs232_conn_ri_w (state : Nat)
  | rs232_conn_cts_w (state : Nat)
  | rs232_conn_rxd_w (state : Nat)
  | input_txd (state : Nat)
  | write_txd (state : Nat)
  | write_dtr (state : Nat)
  | write_rts (state : Nat)
  | video_ram_w (a v : Nat)
  | device_timer (id : Nat)
  | run_until (t : Nat)
  | device_reset
  deriving DecidableEq, Repr

/-- The handler an event runs. The reset is that of the terminal wrapper,
which ends with the reset of the base device. -/
def Op.apply (o : Op) (d : swtpc8212_device) : swtpc8212_device :=
  match o with
  | .latch_w data => d.latch_w data
  | .kbd_put data => d.kbd_put data
  | .pia0_ca2_w state => d.pia0_ca2_w state
  | .pia1_pa_w data => d.pia1_pa_w data
  | .pia1_ca2_w state => d.pia1_ca2_w state
  | .rs232_conn_dcd_w state => d.rs232_conn_dcd_w state
  | .rs232_conn_dsr_w state => d.rs232_conn_dsr_w state
  | .rs232_conn_ri_w state => d.rs232_conn_ri_w state
  | .rs232_conn_cts_w state => d.rs232_conn_cts_w state
  | .rs232_conn_rxd_w state => d.rs232_conn_rxd_w state
  | .input_txd state => swtpc8212_terminal_device.input_txd d state
  | .write_txd state => swtpc8212_terminal_device.write_txd d state
  | .write_dtr state => swtpc8212_terminal_device.write_dtr d state
  | .write_rts state => swtpc8212_terminal_device.write_rts d state
  | .video_ram_w a v => Swtpc8212.video_ram_w d a v
  | .device_timer id => d.device_timer id
  | .run_until t => d.run_until t
  | .device_reset => swtpc8212_terminal_device.device_reset d

/-- The state after a sequence of events, oldest first. -/
def run (d : swtpc8212_device) (ops : List Op) : swtpc8212_device :=
  ops.foldl (fun s o => o.apply s) d

/-- Whether the event is a key press or a reset. -/
def Op.is_kbd_put_or_reset : Op → Bool
  | .kbd_put _ => true
  | .device_reset => true
  | _ => false

/-- Whether the event is a write of the control latch or a reset. -/
def Op.is_latch_w_or_reset : Op → Bool
  | .latch_w _ => true
  | .device_reset => true
  | _ => false

/-- A terminal whose second character generator has every dot set, the
first one being blank. -/
def solid_graphics_terminal : swtpc8212_device :=
  { power_on with m_chargen2 := fun _ => 0xff }

/-- Scanline 0 of two columns drawn over a blank bitmap in the graphics
format: latch 0xc0, so 8-dot cells from the second generator. -/
def graphics_frame : Bitmap :=
  (swtpc8212_device.update_row (solid_graphics_terminal.latch_w 0xc0) blank_bitmap
    0 0 0 2 (-1) 1 0).2

/-- The same scanline drawn again over `graphics_frame` after the latch was
written with 0x00: 9-dot cells from the first generator, which is blank. -/
def text_frame_after_graphics : Bitmap :=
  (swtpc8212_device.update_row ((solid_graphics_terminal.latch_w 0xc0).latch_w 0x00)
    graphics_frame 0 0 0 2 (-1) 1 0).2

/-! ## Helper lemmas on the record -/

theorem emitted_at_append (d d' : swtpc8212_device) (es : List (Nat × Call))
    (h : d'.log = d.log ++ es) : emitted_at d d' = es := by
  simp [emitted_at, h]

theorem emitted_append (d d' : swtpc8212_device) (es : List (Nat × Call))
    (h : d'.log = d.log ++ es) : emitted d d' = es.map Prod.snd := by
  simp [emitted, h]

theorem emitted_self (d d' : swtpc8212_device) (h : d'.log = d.log) : emitted d d' = [] := by
  simp [emitted, h]

theorem last_driven_append (sel : Call → Option Nat) (l : List (Nat × Call)) (e : Nat × Call) :
    last_driven sel (l ++ [e]) =
      match sel e.2 with
      | some v => some v
      | none => last_driven sel l := by
  simp [last_driven, List.foldl_append]

/-! ## Printer handshake -/

theorem pia1_ca2_w_log_fall (d : swtpc8212_device) (s : Nat)
    (h : d.m_printer_data_ready = 1 ∧ s = 0) :
    (d.pia1_ca2_w s).log = d.log ++
      [(d.now, Call.printer_output d.m_printer_data), (d.now, Call.pia1_ca1_w CLEAR_LINE),
       (d.now, Call.pia1_ca1_w ASSERT_LINE), (d.now, Call.pia1_ca1_w CLEAR_LINE)] := by
  simp [swtpc8212_device.pia1_ca2_w, swtpc8212_device.call, h]

theorem pia1_ca2_w_log_other (d : swtpc8212_device) (s : Nat)
    (h : ¬ (d.m_printer_data_ready = 1 ∧ s = 0)) :
    (d.pia1_ca2_w s).log = d.log := by
  simp [swtpc8212_device.pia1_ca2_w, h]

theorem pia1_ca2_w_ready (d : swtpc8212_device) (s : Nat) :
    (d.pia1_ca2_w s).m_printer_data_ready = s := by
  simp [swtpc8212_device.pia1_ca2_w]

theorem pia1_ca2_w_data (d : swtpc8212_device) (s : Nat) :
    (d.pia1_ca2_w s).m_printer_data = d.m_printer_data := by
  unfold swtpc8212_device.pia1_ca2_w
  split <;> rfl

/-- C1: for a line level `s`, `pia1_ca2_w(s)` hands a byte to the printer
exactly when the stored ready flag is 1 and `s` is 0; it then makes exactly four calls, the output of
the stored printer byte followed by CA1 driven CLEAR, ASSERT, CLEAR; otherwise
it makes no call at all; the stored flag is `s` afterwards in every case, and
the printer byte is the one `pia1_pa_w` stored (which itself calls nothing
and leaves the flag alone). -/
theorem pia1_ca2_w_forwards_iff_falling_edge (d : swtpc8212_device) (s : Nat) (_hs : s ≤ 1) :
    (printer_bytes (emitted d (d.pia1_ca2_w s)) ≠ [] ↔
        (d.m_printer_data_ready = 1 ∧ s = 0)) ∧
    ((d.m_printer_data_ready = 1 ∧ s = 0) →
        emitted d (d.pia1_ca2_w s) =
          [Call.printer_output d.m_printer_data, Call.pia1_ca1_w CLEAR_LINE,
           Call.pia1_ca1_w ASSERT_LINE, Call.pia1_ca1_w CLEAR_LINE]) ∧
    (¬ (d.m_printer_data_ready = 1 ∧ s = 0) → emitted d (d.pia1_ca2_w s) = []) ∧
    (d.pia1_ca2_w s).log = d.log ++ emitted_at d (d.pia1_ca2_w s) ∧
    (d.pia1_ca2_w s).m_printer_data_ready = s ∧
    (∀ v, (d.pia1_pa_w v).m_printer_data = v ∧
          (d.pia1_pa_w v).m_printer_data_ready = d.m_printer_data_ready ∧
          (d.pia1_pa_w v).log = d.log) := by
  by_cases h : d.m_printer_data_ready = 1 ∧ s = 0
  · have hl := pia1_ca2_w_log_fall d s h
    refine ⟨?_, ?_, ?_, ?_, pia1_ca2_w_ready d s, ?_⟩
    · rw [emitted_append d _ _ hl]
      simp [printer_bytes, h]
    · intro _
      rw [emitted_append d _ _ hl]
      rfl
    · intro hn
      exact absurd h hn
    · rw [emitted_at_append d _ _ hl]
      exact hl
    · intro v
      exact ⟨rfl, rfl, rfl⟩
  · have hl := pia1_ca2_w_log_other d s h
    refine ⟨?_, ?_, ?_, ?_, pia1_ca2_w_ready d s, ?_⟩
    · rw [emitted_self d _ hl]
      simp [printer_bytes, h]
    · intro hp
      exact absurd hp h
    · intro _
      exact emitted_self d _ hl
    · simp [emitted_at, hl]
    · intro v
      exact ⟨rfl, rfl, rfl⟩

/-- Witness for C1: the reset terminal, with the byte 0x41 stored, on a
falling edge of the ready line. -/
theorem pia1_ca2_w_forwards_iff_falling_edge_witness :
    (0 : Nat) ≤ 1 ∧
    emitted ((swtpc8212_terminal_device.device_reset power_on).pia1_pa_w 0x41)
      (((swtpc8212_terminal_device.device_reset power_on).pia1_pa_w 0x41).pia1_ca2_w 0) =
      [Call.printer_output 0x41, Call.pia1_ca1_w CLEAR_LINE,
       Call.pia1_ca1_w ASSERT_LINE, Call.pia1_ca1_w CLEAR_LINE] :=
  ⟨by decide,
   (pia1_ca2_w_forwards_iff_falling_edge
      ((swtpc8212_terminal_device.device_reset power_on).pia1_pa_w 0x41) 0 (by decide)).2.1
      ⟨rfl, rfl⟩⟩

/-- C2, as stated, fails: after the handshake that forwarded 0x41, a rise
and a fall of the ready line with no new `pia1_pa_w` write forward 0x41 to the
printer a second time. -/
theorem pia1_ca2_w_second_fall_counterexample :
    printer_bytes (emitted power_on handshake_done) = [0x41] ∧
    printer_bytes (emitted (handshake_done.pia1_ca2_w 1)
      ((handshake_done.pia1_ca2_w 1).pia1_ca2_w 0)) = [0x41] := by
  constructor <;> rfl

/-- C2, amended: whatever the state, once the ready line has been driven low,
driving it high calls nothing, and driving it low again forwards the stored
printer byte once more, followed by CA1 driven CLEAR, ASSERT, CLEAR; only a
second low level with no rise in between calls nothing. -/
theorem pia1_ca2_w_every_falling_edge_forwards (d : swtpc8212_device) :
    emitted (d.pia1_ca2_w 0) ((d.pia1_ca2_w 0).pia1_ca2_w 1) = [] ∧
    emitted ((d.pia1_ca2_w 0).pia1_ca2_w 1) (((d.pia1_ca2_w 0).pia1_ca2_w 1).pia1_ca2_w 0) =
      [Call.printer_output d.m_printer_data, Call.pia1_ca1_w CLEAR_LINE,
       Call.pia1_ca1_w ASSERT_LINE, Call.pia1_ca1_w CLEAR_LINE] ∧
    emitted (d.pia1_ca2_w 0) ((d.pia1_ca2_w 0).pia1_ca2_w 0) = [] := by
  have h0 : (d.pia1_ca2_w 0).m_printer_data_ready = 0 := pia1_ca2_w_ready d 0
  have h1 : ((d.pia1_ca2_w 0).pia1_ca2_w 1).m_printer_data_ready = 1 := pia1_ca2_w_ready _ 1
  refine ⟨?_, ?_, ?_⟩
  · exact emitted_self _ _ (pia1_ca2_w_log_other _ _ (by simp))
  · rw [emitted_append _ _ _ (pia1_ca2_w_log_fall _ 0 ⟨h1, rfl⟩)]
    simp [pia1_ca2_w_data]
  · exact emitted_self _ _ (pia1_ca2_w_log_other _ _ (by simp [h0]))

/-! ## RS232 relay -/

/-- C3: `route_term_dtr(s)` calls `output_cts(s)`, and nothing else, when the
flow-control port reads 1, so that the downstream CTS was last driven to `s`
when the call returns; for every other port value the device, record
included, is exactly as before. In both cases nothing but the record changes. -/
theorem route_term_dtr_relays_iff_dtr_mode (d : swtpc8212_device) (s : Nat) :
    (emitted d (swtpc8212_terminal_device.route_term_dtr d s) = [Call.output_cts s] ↔
        d.m_flow_control = 1) ∧
    (d.m_flow_control = 1 →
        last_driven sel_output_cts (swtpc8212_terminal_device.route_term_dtr d s).log = some s) ∧
    (d.m_flow_control ≠ 1 → swtpc8212_terminal_device.route_term_dtr d s = d) ∧
    { swtpc8212_terminal_device.route_term_dtr d s with log := d.log } = d := by
  by_cases h : d.m_flow_control = 1
  · have hl : (swtpc8212_terminal_device.route_term_dtr d s).log =
        d.log ++ [(d.now, Call.output_cts s)] := by
      simp [swtpc8212_terminal_device.route_term_dtr, swtpc8212_terminal_device.output_cts,
        swtpc8212_device.call, h]
    refine ⟨?_, ?_, ?_, ?_⟩
    · rw [emitted_append d _ _ hl]
      simp [h]
    · intro _
      rw [hl, last_driven_append]
      rfl
    · intro hn
      exact absurd h hn
    · unfold swtpc8212_terminal_device.route_term_dtr
      rw [if_pos h]
      rfl
  · have hd : swtpc8212_terminal_device.route_term_dtr d s = d := by
      simp [swtpc8212_terminal_device.route_term_dtr, h]
    refine ⟨?_, ?_, ?_, ?_⟩
    · rw [hd, emitted_self d d rfl]
      simp [h]
    · intro hp
      exact absurd hp h
    · intro _
      exact hd
    · rw [hd]

/-- Witness for C3: the reset terminal with the flow-control port at 1. -/
theorem route_term_dtr_relays_iff_dtr_mode_witness :
    ({ swtpc8212_terminal_device.device_reset power_on with m_flow_control := 1 }).m_flow_control
      = 1 ∧
    last_driven sel_output_cts (swtpc8212_terminal_device.route_term_dtr
      { swtpc8212_terminal_device.device_reset power_on with m_flow_control := 1 } 1).log
      = some 1 :=
  ⟨rfl, (route_term_dtr_relays_iff_dtr_mode
      { swtpc8212_terminal_device.device_reset power_on with m_flow_control := 1 } 1).2.1 rfl⟩

/-- C4: a change of the terminal's RTS output to `s` makes exactly one call,
`uart.cts_w(s)`, so the UART's CTS input was last driven to `s` and no
downstream output is driven; nothing but the record changes, and the value of
the flow-control port plays no part. -/
theorem write_rts_loops_to_own_cts (d : swtpc8212_device) (s fc : Nat) :
    emitted d (swtpc8212_terminal_device.write_rts d s) = [Call.uart_cts_w s] ∧
    last_driven sel_uart_cts (swtpc8212_terminal_device.write_rts d s).log = some s ∧
    last_driven sel_output_cts (swtpc8212_terminal_device.write_rts d s).log =
      last_driven sel_output_cts d.log ∧
    { swtpc8212_terminal_device.write_rts d s with log := d.log } = d ∧
    emitted { d with m_flow_control := fc }
      (swtpc8212_terminal_device.write_rts { d with m_flow_control := fc } s) =
      [Call.uart_cts_w s] := by
  have hl : ∀ e : swtpc8212_device, (swtpc8212_terminal_device.write_rts e s).log =
      e.log ++ [(e.now, Call.uart_cts_w s)] := by
    intro e
    simp [swtpc8212_terminal_device.write_rts, swtpc8212_terminal_device.route_term_rts,
      swtpc8212_device.rs232_conn_cts_w, swtpc8212_device.call]
  refine ⟨?_, ?_, ?_, ?_, ?_⟩
  · rw [emitted_append d _ _ (hl d)]
    rfl
  · rw [hl d, last_driven_append]
    rfl
  · rw [hl d, last_driven_append]
    rfl
  · simp [swtpc8212_terminal_device.write_rts, swtpc8212_terminal_device.route_term_rts,
      swtpc8212_device.rs232_conn_cts_w, swtpc8212_device.call]
  · rw [emitted_append _ _ _ (hl _)]
    rfl

/-! ## Reset -/

theorem terminal_device_reset_log (d : swtpc8212_device) :
    (swtpc8212_terminal_device.device_reset d).log = d.log ++
      [(d.now, Call.uart_cts_w 0), (d.now, Call.output_rxd 1), (d.now, Call.output_dcd 0),
       (d.now, Call.output_dsr 0), (d.now, Call.output_cts 0),
       (d.now, Call.pia0_cb1_w ASSERT_LINE), (d.now, Call.beeper_set_state 0),
       (d.now, Call.pia1_ca1_w CLEAR_LINE)] := by
  have hb : ∀ e : swtpc8212_device, (swtpc8212_device.device_reset e).log = e.log ++
      [(e.now, Call.pia0_cb1_w ASSERT_LINE), (e.now, Call.beeper_set_state 0),
       (e.now, Call.pia1_ca1_w CLEAR_LINE)] := by
    intro e
    by_cases h : e.m_one_stop_bit = 0 <;>
      simp [swtpc8212_device.device_reset, swtpc8212_device.call, h]
  unfold swtpc8212_terminal_device.device_reset
  rw [hb]
  simp [swtpc8212_terminal_device.output_rxd, swtpc8212_terminal_device.output_dcd,
    swtpc8212_terminal_device.output_dsr, swtpc8212_terminal_device.output_cts,
    swtpc8212_device.rs232_conn_cts_w, swtpc8212_device.call]

theorem last_driven_append_list (sel : Call → Option Nat) (l es : List (Nat × Call)) :
    last_driven sel (l ++ es) =
      match last_driven sel es with
      | some v => some v
      | none => last_driven sel l := by
  induction es using List.reverseRecOn with
  | nil => simp [last_driven]
  | append_singleton es e ih =>
    rw [← List.append_assoc, last_driven_append, last_driven_append, ih]
    cases sel e.2 <;> rfl

/-- C5: after the terminal's `device_reset`, from any state: the beeper was
last set to 0, the printer ready flag is 1, the printer byte and the keyboard
byte are 0, the latch holds 0x1f, PIA0 CB1 was last driven ASSERT, PIA1 CA1
was last driven CLEAR, the UART's CTS input was last driven 0, and the
downstream outputs were last driven RXD = 1, DCD = 0, DSR = 0, CTS = 0. -/
theorem terminal_device_reset_state (d : swtpc8212_device) :
    bell_on (swtpc8212_terminal_device.device_reset d) = false ∧
    last_driven sel_beeper (swtpc8212_terminal_device.device_reset d).log = some 0 ∧
    (swtpc8212_terminal_device.device_reset d).m_printer_data_ready = 1 ∧
    (swtpc8212_terminal_device.device_reset d).m_printer_data = 0 ∧
    (swtpc8212_terminal_device.device_reset d).m_kbd_data = 0 ∧
    (swtpc8212_terminal_device.device_reset d).pia0_pb_r = 0 ∧
    (swtpc8212_terminal_device.device_reset d).m_latch_data = 0x1f ∧
    last_driven sel_pia0_cb1 (swtpc8212_terminal_device.device_reset d).log = some ASSERT_LINE ∧
    last_driven sel_pia1_ca1 (swtpc8212_terminal_device.device_reset d).log = some CLEAR_LINE ∧
    last_driven sel_uart_cts (swtpc8212_terminal_device.device_reset d).log = some 0 ∧
    last_driven sel_output_rxd (swtpc8212_terminal_device.device_reset d).log = some 1 ∧
    last_driven sel_output_dcd (swtpc8212_terminal_device.device_reset d).log = some 0 ∧
    last_driven sel_output_dsr (swtpc8212_terminal_device.device_reset d).log = some 0 ∧
    last_driven sel_output_cts (swtpc8212_terminal_device.device_reset d).log = some 0 := by
  have hf : (swtpc8212_terminal_device.device_reset d).m_printer_data_ready = 1 ∧
      (swtpc8212_terminal_device.device_reset d).m_printer_data = 0 ∧
      (swtpc8212_terminal_device.device_reset d).m_kbd_data = 0 ∧
      (swtpc8212_terminal_device.device_reset d).m_latch_data = 0x1f := by
    by_cases h : d.m_one_stop_bit = 0 <;>
      simp [swtpc8212_terminal_device.device_reset, swtpc8212_device.device_reset,
        swtpc8212_terminal_device.output_rxd, swtpc8212_terminal_device.output_dcd,
        swtpc8212_terminal_device.output_dsr, swtpc8212_terminal_device.output_cts,
        swtpc8212_device.rs232_conn_cts_w, swtpc8212_device.call, h]
  have hb : last_driven sel_beeper (swtpc8212_terminal_device.device_reset d).log = some 0 := by
    rw [terminal_device_reset_log, last_driven_append_list]; rfl
  refine ⟨?_, hb, hf.1, hf.2.1, hf.2.2.1, hf.2.2.1, hf.2.2.2, ?_, ?_, ?_, ?_, ?_, ?_, ?_⟩
  · simp [bell_on, hb]
  all_goals (rw [terminal_device_reset_log, last_driven_append_list]; rfl)

/-! ## Bell -/

theorem run_until_pending (d : swtpc8212_device) (t e : Nat) (hn : d.now ≤ t)
    (he : d.m_bell_timer = some e) (ht : t < e) :
    d.run_until t = { d with now := t } := by
  unfold swtpc8212_device.run_until
  rw [if_neg (by omega), he]
  simp only []
  rw [if_neg (by omega)]

theorem run_until_expired (d : swtpc8212_device) (t e : Nat) (hn : d.now ≤ t)
    (he : d.m_bell_timer = some e) (ht : e ≤ t) :
    (d.run_until t).log = d.log ++ [(max e d.now, Call.beeper_set_state 0)] ∧
    (d.run_until t).m_bell_timer = none ∧ (d.run_until t).now = t := by
  unfold swtpc8212_device.run_until
  rw [if_neg (by omega), he]
  simp only []
  rw [if_pos ht]
  simp [swtpc8212_device.device_timer, swtpc8212_device.call]

theorem run_until_now (d : swtpc8212_device) (t : Nat) (hn : d.now ≤ t) :
    (d.run_until t).now = t := by
  unfold swtpc8212_device.run_until
  rw [if_neg (by omega)]
  cases d.m_bell_timer with
  | none => rfl
  | some e =>
    simp only []
    split <;> rfl

theorem trigger_bell_at_spec (d : swtpc8212_device) (t : Nat) (hn : d.now ≤ t) :
    (trigger_bell_at d t).log = (d.run_until t).log ++ [(t, Call.beeper_set_state 1)] ∧
    (trigger_bell_at d t).m_bell_timer = some (t + 250) ∧ (trigger_bell_at d t).now = t := by
  have h := run_until_now d t hn
  simp [trigger_bell_at, swtpc8212_device.pia0_ca2_w, swtpc8212_device.bell_timer_reset,
    swtpc8212_device.call, h]

theorem bell_on_of_log (d : swtpc8212_device) (l : List (Nat × Call)) (t s : Nat)
    (h : d.log = l ++ [(t, Call.beeper_set_state s)]) : bell_on d = (s != 0) := by
  simp [bell_on, h, last_driven_append, sel_beeper]

/-- C6: with the bell struck at `t1` and again at `t2`, where
`t1 ≤ t2 < t1 + 250` (times in ms, the clock not past `t1` to begin with) and
not struck afterwards: the bell is on at every time from `t1` up to
`t2 + 250`, without any switch-off in between; from `t2 + 250` on it is off,
the timer is disarmed, and the record since the first strike holds exactly
one switch-off, made at `t2 + 250`. A strobe with a nonzero level changes
nothing at all. -/
theorem bell_retrigger_restarts_timer (d : swtpc8212_device) (t1 t2 : Nat)
    (h0 : d.now ≤ t1) (h12 : t1 ≤ t2) (h21 : t2 < t1 + 250) :
    (∀ t, t1 ≤ t → t ≤ t2 →
        bell_on ((trigger_bell_at d t1).run_until t) = true ∧
        bell_off_times (emitted_at (trigger_bell_at d t1)
          ((trigger_bell_at d t1).run_until t)) = []) ∧
    (∀ t, t2 ≤ t → t < t2 + 250 →
        bell_on ((trigger_bell_at (trigger_bell_at d t1) t2).run_until t) = true ∧
        bell_off_times (emitted_at (trigger_bell_at d t1)
          ((trigger_bell_at (trigger_bell_at d t1) t2).run_until t)) = []) ∧
    (∀ t, t2 + 250 ≤ t →
        bell_on ((trigger_bell_at (trigger_bell_at d t1) t2).run_until t) = false ∧
        ((trigger_bell_at (trigger_bell_at d t1) t2).run_until t).m_bell_timer = none ∧
        bell_off_times (emitted_at (trigger_bell_at d t1)
          ((trigger_bell_at (trigger_bell_at d t1) t2).run_until t)) = [t2 + 250]) ∧
    (∀ (e : swtpc8212_device) (s : Nat), s ≠ 0 → e.pia0_ca2_w s = e) := by
  obtain ⟨hl1, ht1, hn1⟩ := trigger_bell_at_spec d t1 h0
  have hp1 : ∀ t, t1 ≤ t → t ≤ t2 → (trigger_bell_at d t1).run_until t =
      { trigger_bell_at d t1 with now := t } := fun t ha hb =>
    run_until_pending _ t (t1 + 250) (by omega) ht1 (by omega)
  obtain ⟨hl2, ht2, hn2⟩ := trigger_bell_at_spec (trigger_bell_at d t1) t2 (by omega)
  rw [hp1 t2 h12 (le_refl _)] at hl2
  have hl2' : (trigger_bell_at (trigger_bell_at d t1) t2).log =
      (trigger_bell_at d t1).log ++ [(t2, Call.beeper_set_state 1)] := hl2
  refine ⟨?_, ?_, ?_, ?_⟩
  · intro t ha hb
    rw [hp1 t ha hb]
    constructor
    · exact bell_on_of_log _ _ _ 1 hl1
    · simp [emitted_at, bell_off_times]
  · intro t ha hb
    rw [run_until_pending _ t (t2 + 250) (by omega) ht2 hb]
    constructor
    · exact bell_on_of_log _ _ _ 1 hl2'
    · simp [emitted_at, hl2', bell_off_times]
  · intro t ha
    obtain ⟨hl3, ht3, _⟩ := run_until_expired _ t (t2 + 250) (by omega) ht2 ha
    refine ⟨?_, ht3, ?_⟩
    · rw [bell_on_of_log _ _ _ _ hl3]
      rfl
    · rw [hl2', hn2, List.append_assoc] at hl3
      rw [emitted_at_append _ _ _ hl3]
      have hm : max (t2 + 250) t2 = t2 + 250 := by omega
      simp [bell_off_times, hm]
  · intro e s hs
    simp [swtpc8212_device.pia0_ca2_w, hs]

/-- Witness for C6: the reset terminal, struck at 1000 ms and at 1100 ms. -/
theorem bell_retrigger_restarts_timer_witness :
    (swtpc8212_terminal_device.device_reset power_on).now ≤ 1000 ∧ 1000 ≤ 1100 ∧
    1100 < 1000 + 250 ∧
    bell_off_times (emitted_at (trigger_bell_at (swtpc8212_terminal_device.device_reset power_on) 1000)
      ((trigger_bell_at (trigger_bell_at (swtpc8212_terminal_device.device_reset power_on) 1000)
        1100).run_until 2000)) = [1100 + 250] :=
  ⟨by decide, by decide, by decide,
   ((bell_retrigger_restarts_timer (swtpc8212_terminal_device.device_reset power_on) 1000 1100
      (by decide) (by decide) (by decide)).2.2.1 2000 (by decide)).2.2⟩

/-! ## Row rendering -/

theorem BIT_eq_div_mod (x n : Nat) : BIT x n = x / 2 ^ n % 2 := by
  simp [BIT, Nat.shiftRight_eq_div_pow, Nat.and_one_is_mod]

theorem BIT_mod_256 (x : Nat) : BIT (x % 256) 7 = BIT x 7 := by
  simp only [BIT_eq_div_mod]
  norm_num
  omega

theorem BIT_shifted (g b : Nat) (hb : b < 8) : BIT ((g * 2 ^ b) % 256) 7 = BIT g (7 - b) := by
  simp only [BIT_eq_div_mod]
  interval_cases b <;> norm_num <;> omega

theorem update_row_bits_spec (y hbp dcursor intensity : Nat) (de : Int) (st : BitLoop) (n : Nat) :
    ((List.range n).foldl (fun s _ =>
        swtpc8212_device.update_row_bit y hbp dcursor intensity de s) st).x = st.x + n ∧
    ((List.range n).foldl (fun s _ =>
        swtpc8212_device.update_row_bit y hbp dcursor intensity de s) st).data % 256
      = (st.data * 2 ^ n) % 256 ∧
    ∀ y' p, ((List.range n).foldl (fun s _ =>
        swtpc8212_device.update_row_bit y hbp dcursor intensity de s) st).bitmap y' p =
      if y' = y ∧ hbp + st.x ≤ p ∧ p < hbp + st.x + n then
        swtpc8212_device.font_color dcursor
          (BIT ((st.data * 2 ^ (p - (hbp + st.x))) % 256) 7) intensity de
      else st.bitmap y' p := by
  induction n with
  | zero =>
    refine ⟨rfl, by simp, ?_⟩
    intro y' p
    rw [if_neg]
    · rfl
    · rintro ⟨_, hl, hu⟩
      exact absurd hl (by omega)
  | succ n ih =>
    obtain ⟨hx, hd, hb⟩ := ih
    rw [List.range_succ, List.foldl_append]
    simp only [List.foldl_cons, List.foldl_nil]
    generalize (List.range n).foldl (fun s _ =>
        swtpc8212_device.update_row_bit y hbp dcursor intensity de s) st = r at hx hd hb
    refine ⟨?_, ?_, ?_⟩
    · simp [swtpc8212_device.update_row_bit, hx]; omega
    · simp only [swtpc8212_device.update_row_bit, Nat.shiftLeft_eq, pow_succ, ← Nat.mul_assoc]
      generalize st.data * 2 ^ n = m at hd
      omega
    · intro y' p
      simp only [swtpc8212_device.update_row_bit, pix32_set, hb, hx]
      by_cases h1 : y' = y ∧ p = hbp + (st.x + n)
      · obtain ⟨hy, hp⟩ := h1
        have hsub : p - (hbp + st.x) = n := by omega
        rw [if_pos ⟨hy, hp⟩, if_pos ⟨hy, by omega, by omega⟩, hsub, ← hd, BIT_mod_256]
      · rw [if_neg h1]
        by_cases h2 : y' = y ∧ hbp + st.x ≤ p ∧ p < hbp + st.x + n
        · rw [if_pos h2, if_pos ⟨h2.1, h2.2.1, by omega⟩]
        · rw [if_neg h2, if_neg]
          rintro ⟨hy, hl, hu⟩
          by_cases hp : p = hbp + (st.x + n)
          · exact h1 ⟨hy, hp⟩
          · exact h2 ⟨hy, hl, by omega⟩

theorem update_row_loop_succ (d : swtpc8212_device) (bitmap : Bitmap) (ma ra y k : Nat)
    (cursor_x de : Int) (hbp : Nat) :
    swtpc8212_device.update_row_loop d bitmap ma ra y (k + 1) cursor_x de hbp =
      swtpc8212_device.update_row_column d ma ra y cursor_x de hbp
        (swtpc8212_device.update_row_loop d bitmap ma ra y k cursor_x de hbp) k := by
  simp [swtpc8212_device.update_row_loop, List.range_succ, List.foldl_append]

theorem update_row_column_spec (d : swtpc8212_device) (ma ra y : Nat) (cursor_x de : Int)
    (hbp : Nat) (r : Bitmap × Nat) (k : Nat) :
    (swtpc8212_device.update_row_column d ma ra y cursor_x de hbp r k).2 =
      r.2 + cell_width d ∧
    ∀ y' p, (swtpc8212_device.update_row_column d ma ra y cursor_x de hbp r k).1 y' p =
      if y' = y ∧ hbp + r.2 ≤ p ∧ p < hbp + r.2 + 8 then
        cell_pixel d ma ra cursor_x de k (p - (hbp + r.2))
      else r.1 y' p := by
  obtain ⟨bx, _, bb⟩ := update_row_bits_spec y hbp (if (k : Int) = cursor_x then 1 else 0)
    (BIT (cell_code d ma k) 7) de
    { bitmap := r.1, x := r.2, data := cell_data d ra (cell_code d ma k) } 8
  simp only [cell_code, cell_data] at bx bb
  by_cases hW : BIT d.m_latch_data 7 = 0
  · simp only [swtpc8212_device.update_row_column, hW, if_true, cell_width]
    refine ⟨by rw [bx], ?_⟩
    intro y' p
    rw [bb]
    rfl
  · simp only [swtpc8212_device.update_row_column, hW, if_false, cell_width]
    refine ⟨by rw [bx], ?_⟩
    intro y' p
    rw [bb]
    rfl

theorem cell_width_cases (d : swtpc8212_device) : cell_width d = 9 ∨ cell_width d = 8 := by
  unfold cell_width
  split
  · exact Or.inl rfl
  · exact Or.inr rfl

/-- What the loops of `update_row` leave behind after `k` columns: `x` has
advanced by `k` cells, the first eight positions of each of these cells in
row `y` hold the pixel computed for them, every other pixel is as it was. -/
theorem update_row_loop_spec (d : swtpc8212_device) (bitmap : Bitmap) (ma ra y : Nat)
    (cursor_x de : Int) (hbp k : Nat) :
    (swtpc8212_device.update_row_loop d bitmap ma ra y k cursor_x de hbp).2 =
      cell_width d * k ∧
    ∀ y' p, (swtpc8212_device.update_row_loop d bitmap ma ra y k cursor_x de hbp).1 y' p =
      if y' = y ∧ hbp ≤ p ∧ (p - hbp) / cell_width d < k ∧ (p - hbp) % cell_width d < 8 then
        cell_pixel d ma ra cursor_x de ((p - hbp) / cell_width d) ((p - hbp) % cell_width d)
      else bitmap y' p := by
  induction k with
  | zero =>
    refine ⟨by simp [swtpc8212_device.update_row_loop], ?_⟩
    intro y' p
    rw [if_neg]
    · rfl
    · rintro ⟨_, _, h, _⟩
      exact absurd h (Nat.not_lt_zero _)
  | succ k ih =>
    obtain ⟨hx, hb⟩ := ih
    rw [update_row_loop_succ]
    generalize swtpc8212_device.update_row_loop d bitmap ma ra y k cursor_x de hbp = r at hx hb
    obtain ⟨cx, cb⟩ := update_row_column_spec d ma ra y cursor_x de hbp r k
    refine ⟨by rw [cx, hx, Nat.mul_succ], ?_⟩
    intro y' p
    rw [cb, hb, hx]
    have hW := cell_width_cases d
    generalize cell_width d = W at hW ⊢
    by_cases hA : y' = y ∧ hbp + W * k ≤ p ∧ p < hbp + W * k + 8
    · obtain ⟨hy, hl, hu⟩ := hA
      have hq : (p - hbp) / W = k := by rcases hW with rfl | rfl <;> omega
      have hm : (p - hbp) % W = p - (hbp + W * k) := by rcases hW with rfl | rfl <;> omega
      rw [if_pos ⟨hy, hl, hu⟩, if_pos ⟨hy, by omega, by omega, by omega⟩, hq, hm]
    · rw [if_neg hA]
      by_cases hB : y' = y ∧ hbp ≤ p ∧ (p - hbp) / W < k ∧ (p - hbp) % W < 8
      · rw [if_pos hB, if_pos ⟨hB.1, hB.2.1, by omega, hB.2.2.2⟩]
      · rw [if_neg hB, if_neg]
        rintro ⟨hy, hl, hq, hm⟩
        by_cases hk : (p - hbp) / W < k
        · exact hB ⟨hy, hl, hk, hm⟩
        · refine hA ⟨hy, ?_, ?_⟩ <;> rcases hW with rfl | rfl <;> omega

theorem mask_07ff (n : Nat) : n &&& 0x07ff = n % 2048 :=
  Nat.and_pow_two_sub_one_eq_mod n 11

theorem BIT_lt_two (x n : Nat) : BIT x n = 0 ∨ BIT x n = 1 := by
  rw [BIT_eq_div_mod]
  omega

/-- The pixel `update_row` leaves at bit `b` of column `c`. -/
theorem update_row_at_cell (d : swtpc8212_device) (bitmap : Bitmap) (ma ra y x_count : Nat)
    (cursor_x de : Int) (hbp c b : Nat) (hc : c < x_count) (hb : b < 8) :
    (swtpc8212_device.update_row d bitmap ma ra y x_count cursor_x de hbp).2 y
      (hbp + cell_width d * c + b) = cell_pixel d ma ra cursor_x de c b := by
  have h := (update_row_loop_spec d bitmap ma ra y cursor_x de hbp x_count).2 y
    (hbp + cell_width d * c + b)
  have hW := cell_width_cases d
  have hq : (hbp + cell_width d * c + b - hbp) / cell_width d = c := by
    rcases hW with hW | hW <;> rw [hW] <;> omega
  have hm : (hbp + cell_width d * c + b - hbp) % cell_width d = b := by
    rcases hW with hW | hW <;> rw [hW] <;> omega
  rw [hq, hm, if_pos ⟨rfl, by omega, hc, hb⟩] at h
  exact h

/-- The rule of `font_color`, in terms of the glyph byte loaded for the cell. -/
theorem cell_pixel_rule (d : swtpc8212_device) (ma ra : Nat) (cursor_x de : Int) (c b : Nat)
    (hb : b < 8) :
    cell_pixel d ma ra cursor_x de c b =
      if (BIT (cell_data d ra (cell_code d ma c)) (7 - b) ^^^
            (if (c : Int) = cursor_x then 1 else 0)) = 1 ∧ de ≠ 0 then
        if BIT (cell_code d ma c) 7 = 1 then rgb_t 0x10 0xff 0x10 else rgb_t 0x00 0xd0 0x00
      else 0 := by
  unfold cell_pixel swtpc8212_device.font_color
  rw [BIT_shifted _ _ hb]
  rcases BIT_lt_two (cell_data d ra (cell_code d ma c)) (7 - b) with hg | hg <;>
  rcases BIT_lt_two (cell_code d ma c) 7 with hi | hi <;>
  by_cases hcur : (c : Int) = cursor_x <;>
  by_cases hde : de = 0 <;>
  simp [hg, hi, hcur, hde]

theorem cell_data_eq (d : swtpc8212_device) (ra code : Nat) :
    cell_data d ra code =
      (if BIT d.m_latch_data 6 = 0 then d.m_chargen1 else d.m_chargen2)
        (if ra < 16 then (code &&& 0x7f) ||| ((ra &&& 0x0f) <<< 7) else 0) := rfl

theorem cell_code_eq (d : swtpc8212_device) (ma c : Nat) :
    cell_code d ma c = d.m_video_ram ((ma + c) % 2048) := by
  rw [cell_code, mask_07ff]

theorem cell_width_eq (d : swtpc8212_device) :
    cell_width d = if BIT d.m_latch_data 7 = 0 then 9 else 8 := rfl

/-- C7: for every call of `update_row`, column `c < x_count` and bit `b < 8`
(bit 0 being the top bit of the glyph byte), the pixel stored for that bit is
0 unless the glyph bit XOR the cursor flag of the column is 1 and `de` is
nonzero; it is then `rgb_t(0x10,0xff,0x10)` when bit 7 of the character code
is set and `rgb_t(0x00,0xd0,0x00)` otherwise. The code is
`video_ram[(ma + c) mod 2048]`, the glyph byte is read at
`(code & 0x7f) | ((ra & 0x0f) << 7)` for `ra < 16` from generator 1 when
latch bit 6 is 0 and from generator 2 otherwise. The device (video RAM and
latch included) is returned as it was. -/
theorem update_row_pixel_rule (d : swtpc8212_device) (bitmap : Bitmap)
    (ma ra y x_count : Nat) (cursor_x de : Int) (hbp c b : Nat)
    (hc : c < x_count) (hb : b < 8) :
    (swtpc8212_device.update_row d bitmap ma ra y x_count cursor_x de hbp).2 y
        (hbp + (if BIT d.m_latch_data 7 = 0 then 9 else 8) * c + b) =
      (if (BIT ((if BIT d.m_latch_data 6 = 0 then d.m_chargen1 else d.m_chargen2)
                  (if ra < 16 then
                    (d.m_video_ram ((ma + c) % 2048) &&& 0x7f) ||| ((ra &&& 0x0f) <<< 7)
                   else 0)) (7 - b)
            ^^^ (if (c : Int) = cursor_x then 1 else 0)) = 1 ∧ de ≠ 0 then
        if BIT (d.m_video_ram ((ma + c) % 2048)) 7 = 1 then rgb_t 0x10 0xff 0x10
        else rgb_t 0x00 0xd0 0x00
       else 0) ∧
    (swtpc8212_device.update_row d bitmap ma ra y x_count cursor_x de hbp).1 = d := by
  refine ⟨?_, rfl⟩
  rw [← cell_width_eq, update_row_at_cell d bitmap ma ra y x_count cursor_x de hbp c b hc hb,
    cell_pixel_rule d ma ra cursor_x de c b hb, cell_data_eq, cell_code_eq]

/-- Witness for C7: two columns of solid glyphs, no cursor, display enabled;
bit 3 of column 1 lands on position 12 in the dimmer foreground colour. -/
theorem update_row_pixel_rule_witness :
    (1 : Nat) < 2 ∧ (3 : Nat) < 8 ∧
    (swtpc8212_device.update_row solid_chargen_terminal blank_bitmap 0 0 0 2 (-1) 1 0).2 0 12 =
      rgb_t 0x00 0xd0 0x00 :=
  ⟨by decide, by decide,
   (update_row_pixel_rule solid_chargen_terminal blank_bitmap 0 0 0 2 (-1) 1 0 1 3
      (by decide) (by decide)).1.trans (by decide)⟩

/-- C8, as stated, fails: at row index 16, with no cursor on the line, a
character generator whose byte at address 0 is 0xff gives a lit pixel. -/
theorem update_row_blank_row_counterexample :
    (16 : Nat) ≥ 16 ∧ ((0 : Nat) : Int) ≠ -1 ∧
    (swtpc8212_device.update_row solid_chargen_terminal blank_bitmap 0 16 0 1 (-1) 1 0).2 0 0 =
      rgb_t 0x00 0xd0 0x00 ∧
    rgb_t 0x00 0xd0 0x00 ≠ 0 := by
  refine ⟨by decide, by decide, ?_, by decide⟩
  decide

/-- C8, amended: for a row index `ra ≥ 16`, `update_row` takes as glyph byte
of every column the byte at address 0 of the selected character generator,
whatever the character code, and applies the usual pixel rule to it; when
that byte is 0, every pixel stored for a column other than the cursor column
is background. -/
theorem update_row_out_of_range_row (d : swtpc8212_device) (bitmap : Bitmap)
    (ma ra y x_count : Nat) (cursor_x de : Int) (hbp c b : Nat)
    (hra : 16 ≤ ra) (hc : c < x_count) (hb : b < 8) :
    (swtpc8212_device.update_row d bitmap ma ra y x_count cursor_x de hbp).2 y
        (hbp + (if BIT d.m_latch_data 7 = 0 then 9 else 8) * c + b) =
      (if (BIT ((if BIT d.m_latch_data 6 = 0 then d.m_chargen1 else d.m_chargen2) 0) (7 - b)
            ^^^ (if (c : Int) = cursor_x then 1 else 0)) = 1 ∧ de ≠ 0 then
        if BIT (d.m_video_ram ((ma + c) % 2048)) 7 = 1 then rgb_t 0x10 0xff 0x10
        else rgb_t 0x00 0xd0 0x00
       else 0) ∧
    ((if BIT d.m_latch_data 6 = 0 then d.m_chargen1 else d.m_chargen2) 0 = 0 →
      (c : Int) ≠ cursor_x →
      (swtpc8212_device.update_row d bitmap ma ra y x_count cursor_x de hbp).2 y
        (hbp + (if BIT d.m_latch_data 7 = 0 then 9 else 8) * c + b) = 0) := by
  have hlt : ¬ ra < 16 := by omega
  have h : (swtpc8212_device.update_row d bitmap ma ra y x_count cursor_x de hbp).2 y
        (hbp + (if BIT d.m_latch_data 7 = 0 then 9 else 8) * c + b) =
      (if (BIT ((if BIT d.m_latch_data 6 = 0 then d.m_chargen1 else d.m_chargen2) 0) (7 - b)
            ^^^ (if (c : Int) = cursor_x then 1 else 0)) = 1 ∧ de ≠ 0 then
        if BIT (d.m_video_ram ((ma + c) % 2048)) 7 = 1 then rgb_t 0x10 0xff 0x10
        else rgb_t 0x00 0xd0 0x00
       else 0) := by
    rw [← cell_width_eq, update_row_at_cell d bitmap ma ra y x_count cursor_x de hbp c b hc hb,
      cell_pixel_rule d ma ra cursor_x de c b hb, cell_data_eq, cell_code_eq, if_neg hlt]
  refine ⟨h, ?_⟩
  intro hz hcur
  rw [h, hz, if_neg hcur]
  simp [BIT]

/-- Witness for C8 amended: the blank generator of the power-on terminal at
row index 16. -/
theorem update_row_out_of_range_row_witness :
    (16 : Nat) ≤ 16 ∧ (0 : Nat) < 1 ∧ (0 : Nat) < 8 ∧
    (swtpc8212_device.update_row power_on white_bitmap 0 16 0 1 (-1) 1 0).2 0 0 = 0 :=
  ⟨by decide, by decide, by decide,
   (update_row_out_of_range_row power_on white_bitmap 0 16 0 1 (-1) 1 0 0 0
      (by decide) (by decide) (by decide)).2 rfl (by decide)⟩

/-- Pixels outside the glyph positions of the drawn cells are not written. -/
theorem update_row_elsewhere (d : swtpc8212_device) (bitmap : Bitmap) (ma ra y x_count : Nat)
    (cursor_x de : Int) (hbp y' p : Nat)
    (h : ¬ (y' = y ∧ ∃ c b, c < x_count ∧ b < 8 ∧ p = hbp + cell_width d * c + b)) :
    (swtpc8212_device.update_row d bitmap ma ra y x_count cursor_x de hbp).2 y' p =
      bitmap y' p := by
  have hs := (update_row_loop_spec d bitmap ma ra y cursor_x de hbp x_count).2 y' p
  rw [if_neg] at hs
  · exact hs
  · rintro ⟨hy, hl, hq, hm⟩
    refine h ⟨hy, (p - hbp) / cell_width d, (p - hbp) % cell_width d, hq, hm, ?_⟩
    have := Nat.div_add_mod (p - hbp) (cell_width d)
    omega

/-- C9: `update_row` stores bit `b` of column `c` at position
`hbp + W*c + b` of row `y`, with `W = 9` when bit 7 of the latch is clear and
`W = 8` when it is set, and stores nothing anywhere else; `x` ends at
`W * x_count`, so the row spans `9 * x_count` positions with the bit clear
and `8 * x_count` with it set. The latch byte is the one `latch_w` stored. -/
theorem update_row_cell_positions (d : swtpc8212_device) (bitmap : Bitmap)
    (ma ra y x_count : Nat) (cursor_x de : Int) (hbp : Nat) :
    (swtpc8212_device.update_row_loop d bitmap ma ra y x_count cursor_x de hbp).2 =
      (if BIT d.m_latch_data 7 = 0 then 9 else 8) * x_count ∧
    (∀ c b, c < x_count → b < 8 →
      (swtpc8212_device.update_row d bitmap ma ra y x_count cursor_x de hbp).2 y
        (hbp + (if BIT d.m_latch_data 7 = 0 then 9 else 8) * c + b) =
        cell_pixel d ma ra cursor_x de c b) ∧
    (∀ y' p, ¬ (y' = y ∧ ∃ c b, c < x_count ∧ b < 8 ∧
          p = hbp + (if BIT d.m_latch_data 7 = 0 then 9 else 8) * c + b) →
      (swtpc8212_device.update_row d bitmap ma ra y x_count cursor_x de hbp).2 y' p =
        bitmap y' p) ∧
    (BIT d.m_latch_data 7 = 1 →
      (swtpc8212_device.update_row_loop d bitmap ma ra y x_count cursor_x de hbp).2 =
        8 * x_count) ∧
    (BIT d.m_latch_data 7 = 0 →
      (swtpc8212_device.update_row_loop d bitmap ma ra y x_count cursor_x de hbp).2 =
        9 * x_count) ∧
    (∀ v, (d.latch_w v).m_latch_data = v) := by
  have hx := (update_row_loop_spec d bitmap ma ra y cursor_x de hbp x_count).1
  rw [cell_width_eq] at hx
  refine ⟨hx, ?_, ?_, ?_, ?_, ?_⟩
  · intro c b hc hb
    exact update_row_at_cell d bitmap ma ra y x_count cursor_x de hbp c b hc hb
  · intro y' p h
    exact update_row_elsewhere d bitmap ma ra y x_count cursor_x de hbp y' p h
  · intro h1
    rw [hx, if_neg (by omega)]
  · intro h0
    rw [hx, if_pos h0]
  · intro v
    simp [swtpc8212_device.latch_w]

/-- Witness for C9: three columns with the latch byte 0x80 span 24 positions. -/
theorem update_row_cell_positions_witness :
    BIT (power_on.latch_w 0x80).m_latch_data 7 = 1 ∧
    (swtpc8212_device.update_row_loop (power_on.latch_w 0x80) blank_bitmap 0 0 0 3 (-1) 1 0).2 =
      8 * 3 :=
  ⟨by decide,
   (update_row_cell_positions (power_on.latch_w 0x80) blank_bitmap 0 0 0 3 (-1) 1 0).2.2.2.1
      (by decide)⟩

/-- With bit 7 of the latch clear, `update_row` makes no store at the
position after the eight glyph pixels of a column: the pixel there is the one
the bitmap row held before the call. -/
theorem update_row_gap_not_stored (d : swtpc8212_device) (bitmap : Bitmap)
    (ma ra y x_count : Nat) (cursor_x de : Int) (hbp c : Nat)
    (h7 : BIT d.m_latch_data 7 = 0) :
    (swtpc8212_device.update_row d bitmap ma ra y x_count cursor_x de hbp).2 y
        (hbp + 9 * c + 8) = bitmap y (hbp + 9 * c + 8) := by
  have hW : cell_width d = 9 := by rw [cell_width_eq, if_pos h7]
  apply update_row_elsewhere
  rintro ⟨_, c', b', _, hb', hp⟩
  rw [hW] at hp
  omega

/-- C10: the code at the failing input. A scanline of two columns is drawn in
the graphics format (latch 0xc0, 8-dot cells, solid glyphs), which lights
position 8, the first pixel of column 1. The latch is then written with 0x00
and the same scanline is drawn again over the same bitmap, with bit 7 clear
and blank glyphs: every glyph pixel of column 0 and column 1 is background,
but position 8 = hbp + 9*0 + 8, the gap after column 0, still holds the lit
pixel of the earlier frame instead of background. -/
theorem update_row_gap_keeps_stale_pixel :
    BIT ((solid_graphics_terminal.latch_w 0xc0).latch_w 0x00).m_latch_data 7 = 0 ∧
    (0 : Nat) < 2 ∧
    graphics_frame 0 8 = rgb_t 0x00 0xd0 0x00 ∧
    text_frame_after_graphics 0 7 = 0 ∧
    text_frame_after_graphics 0 9 = 0 ∧
    text_frame_after_graphics 0 (0 + 9 * 0 + 8) = rgb_t 0x00 0xd0 0x00 ∧
    rgb_t 0x00 0xd0 0x00 ≠ 0 := by
  refine ⟨by decide, by decide, by decide, by decide, by decide, by decide, by decide⟩

/-! ## Bus address map -/

/-- Masking with a mask whose low eleven bits are all set keeps the low
eleven bits and masks the rest. -/
theorem and_block_mask (a m : Nat) :
    a &&& (2048 * m + 2047) = 2048 * ((a / 2048) &&& m) + a % 2048 := by
  apply Nat.eq_of_testBit_eq
  intro j
  have hr : a % 2048 < 2 ^ 11 := Nat.mod_lt _ (by norm_num)
  have h7 : (2047 : Nat) < 2 ^ 11 := by norm_num
  have ha : a = 2 ^ 11 * (a / 2048) + a % 2048 := by
    have := Nat.div_add_mod a 2048
    omega
  have e1 : (2048 : Nat) * m + 2047 = 2 ^ 11 * m + 2047 := by norm_num
  have e2 : (2048 : Nat) * ((a / 2048) &&& m) + a % 2048 =
      2 ^ 11 * ((a / 2048) &&& m) + a % 2048 := by norm_num
  rw [e1, e2, Nat.testBit_and, Nat.testBit_mul_pow_two_add _ h7,
    Nat.testBit_mul_pow_two_add _ hr]
  conv_lhs => rw [ha, Nat.testBit_mul_pow_two_add _ hr]
  by_cases hj : j < 11
  · have h2047 : Nat.testBit 2047 j = true := by
      have := Nat.testBit_two_pow_sub_one 11 j
      simpa [hj] using this
    simp [hj, h2047]
  · simp [hj, Nat.testBit_and]

theorem claims_plain (a lo hi : Nat) (ha : a < 0x10000) :
    (lo ≤ a &&& (0xffff ^^^ 0) ∧ a &&& (0xffff ^^^ 0) ≤ hi) ↔ (lo ≤ a ∧ a ≤ hi) := by
  have h : a &&& (0xffff ^^^ 0) = a := by
    have := Nat.and_pow_two_sub_one_of_lt_two_pow (n := 16) (x := a) (by norm_num; omega)
    simpa using this
  rw [h]

theorem claims_video_ram (a : Nat) (ha : a < 0x10000) :
    (0x4000 ≤ a &&& (0xffff ^^^ 0x1800) ∧ a &&& (0xffff ^^^ 0x1800) ≤ 0x47ff) ↔
      (0x4000 ≤ a ∧ a ≤ 0x5fff) := by
  have hm : (0xffff ^^^ 0x1800 : Nat) = 2048 * 28 + 2047 := by decide
  rw [hm, and_block_mask]
  have hq : a / 2048 < 32 := by omega
  have hd := Nat.div_add_mod a 2048
  have hr : a % 2048 < 2048 := Nat.mod_lt _ (by norm_num)
  have hand : ∀ q < 32, q &&& 28 = 4 * (q / 4) := by decide
  rw [hand _ hq]
  omega

theorem claims_rom_hi (a : Nat) (ha : a < 0x10000) :
    (0xc000 ≤ a &&& (0xffff ^^^ 0x3800) ∧ a &&& (0xffff ^^^ 0x3800) ≤ 0xc7ff) ↔
      0xc000 ≤ a := by
  have hm : (0xffff ^^^ 0x3800 : Nat) = 2048 * 24 + 2047 := by decide
  rw [hm, and_block_mask]
  have hq : a / 2048 < 32 := by omega
  have hd := Nat.div_add_mod a 2048
  have hr : a % 2048 < 2048 := Nat.mod_lt _ (by norm_num)
  have hand : ∀ q < 32, q &&& 24 = 8 * (q / 8) := by decide
  rw [hand _ hq]
  omega

/-- The targets `mem_map` gives for each 16-bit address. -/
theorem mem_map_decode (a : Nat) (ha : a < 0x10000) :
    decode a =
      if a ≤ 0x007f then [Target.ram]
      else if 0x0080 ≤ a ∧ a ≤ 0x0083 then [Target.pia0]
      else if a = 0x0088 then [Target.crtc_address_w]
      else if a = 0x0089 then [Target.crtc_register]
      else if a = 0x008c then [Target.latch_w]
      else if 0x0090 ≤ a ∧ a ≤ 0x0097 then [Target.uart]
      else if 0x0098 ≤ a ∧ a ≤ 0x009b then [Target.pia1]
      else if 0x4000 ≤ a ∧ a ≤ 0x5fff then [Target.video_ram]
      else if 0xb800 ≤ a ∧ a ≤ 0xbfff then [Target.rom 0]
      else if 0xc000 ≤ a then [Target.rom 0x800]
      else [] := by
  have c0 : _ ↔ a ≤ 0x007f := (claims_plain a 0x0000 0x007f ha).trans (by omega)
  have c1 := claims_plain a 0x0080 0x0083 ha
  have c2 : _ ↔ a = 0x0088 := (claims_plain a 0x0088 0x0088 ha).trans (by omega)
  have c3 : _ ↔ a = 0x0089 := (claims_plain a 0x0089 0x0089 ha).trans (by omega)
  have c4 : _ ↔ a = 0x008c := (claims_plain a 0x008c 0x008c ha).trans (by omega)
  have c5 := claims_plain a 0x0090 0x0097 ha
  have c6 := claims_plain a 0x0098 0x009b ha
  have c7 := claims_video_ram a ha
  have c8 := claims_plain a 0xb800 0xbfff ha
  have c9 := claims_rom_hi a ha
  simp only [decode, mem_map, video_ram_entry, MapEntry.claims]
  by_cases h0 : a ≤ 0x007f <;>
  (by_cases h1 : 0x0080 ≤ a ∧ a ≤ 0x0083 <;> try (exfalso; omega)) <;>
  (by_cases h2 : a = 0x0088 <;> try (exfalso; omega)) <;>
  (by_cases h3 : a = 0x0089 <;> try (exfalso; omega)) <;>
  (by_cases h4 : a = 0x008c <;> try (exfalso; omega)) <;>
  (by_cases h5 : 0x0090 ≤ a ∧ a ≤ 0x0097 <;> try (exfalso; omega)) <;>
  (by_cases h6 : 0x0098 ≤ a ∧ a ≤ 0x009b <;> try (exfalso; omega)) <;>
  (by_cases h7 : 0x4000 ≤ a ∧ a ≤ 0x5fff <;> try (exfalso; omega)) <;>
  (by_cases h8 : 0xb800 ≤ a ∧ a ≤ 0xbfff <;> try (exfalso; omega)) <;>
  (by_cases h9 : 0xc000 ≤ a <;> try (exfalso; omega)) <;>
  first
  | (subst h2; decide)
  | (subst h3; decide)
  | (subst h4; decide)
  | simp only [c0, c1, c2, c3, c4, c5, c6, c7, c8, c9, h0, h1, h2, h3, h4, h5, h6, h7, h8, h9,
      List.filter_cons, List.filter_nil, List.map_cons, List.map_nil, decide_True,
      decide_False, if_true, if_false, and_self, Bool.false_eq_true]

/-- C11, as stated, fails: the 16-bit addresses 0x0084 and 0x6000 are claimed
by no line of `mem_map`. -/
theorem mem_map_unmapped_counterexample :
    (0x0084 : Nat) < 0x10000 ∧ decode 0x0084 = [] ∧
    (0x6000 : Nat) < 0x10000 ∧ decode 0x6000 = [] := by
  decide

/-- C11, amended: for every 16-bit address, at most one line of `mem_map`
claims it, so no address has two targets; the address has exactly one target
(general RAM, PIA0, CRTC address or data register, control latch, UART, PIA1,
video RAM or ROM, as listed) when it lies in 0x0000..0x0083, 0x0088..0x0089,
0x008c, 0x0090..0x009b, 0x4000..0x5fff or 0xb800..0xffff, and none when it
lies in 0x0084..0x0087, 0x008a..0x008b, 0x008d..0x008f, 0x009c..0x3fff or
0x6000..0xb7ff. -/
theorem mem_map_decodes_at_most_once (a : Nat) (ha : a < 0x10000) :
    ((decode a).length ≤ 1 ∧
    ((decode a).length = 1 ↔
      (a ≤ 0x0083 ∨ a = 0x0088 ∨ a = 0x0089 ∨ a = 0x008c ∨ (0x0090 ≤ a ∧ a ≤ 0x009b) ∨
        (0x4000 ≤ a ∧ a ≤ 0x5fff) ∨ 0xb800 ≤ a)) ∧
    (decode a = [] ↔
      ((0x0084 ≤ a ∧ a ≤ 0x0087) ∨ (0x008a ≤ a ∧ a ≤ 0x008b) ∨ (0x008d ≤ a ∧ a ≤ 0x008f) ∨
        (0x009c ≤ a ∧ a ≤ 0x3fff) ∨ (0x6000 ≤ a ∧ a ≤ 0xb7ff)))) ∧
    decode a =
      (if a ≤ 0x007f then [Target.ram]
       else if 0x0080 ≤ a ∧ a ≤ 0x0083 then [Target.pia0]
       else if a = 0x0088 then [Target.crtc_address_w]
       else if a = 0x0089 then [Target.crtc_register]
       else if a = 0x008c then [Target.latch_w]
       else if 0x0090 ≤ a ∧ a ≤ 0x0097 then [Target.uart]
       else if 0x0098 ≤ a ∧ a ≤ 0x009b then [Target.pia1]
       else if 0x4000 ≤ a ∧ a ≤ 0x5fff then [Target.video_ram]
       else if 0xb800 ≤ a ∧ a ≤ 0xbfff then [Target.rom 0]
       else if 0xc000 ≤ a then [Target.rom 0x800]
       else []) := by
  have h := mem_map_decode a ha
  refine ⟨?_, h⟩
  rw [h]
  by_cases h0 : a ≤ 0x007f
  · rw [if_pos h0]
    refine ⟨by decide, ?_, ?_⟩ <;>
      simp only [List.length_cons, List.length_nil, Nat.zero_add, true_iff, Nat.zero_ne_one,
        false_iff, List.cons_ne_nil] <;> omega
  rw [if_neg h0]
  by_cases h1 : 0x0080 ≤ a ∧ a ≤ 0x0083
  · rw [if_pos h1]
    refine ⟨by decide, ?_, ?_⟩ <;>
      simp only [List.length_cons, List.length_nil, Nat.zero_add, true_iff, Nat.zero_ne_one,
        false_iff, List.cons_ne_nil] <;> omega
  rw [if_neg h1]
  by_cases h2 : a = 0x0088
  · rw [if_pos h2]
    refine ⟨by decide, ?_, ?_⟩ <;>
      simp only [List.length_cons, List.length_nil, Nat.zero_add, true_iff, Nat.zero_ne_one,
        false_iff, List.cons_ne_nil] <;> omega
  rw [if_neg h2]
  by_cases h3 : a = 0x0089
  · rw [if_pos h3]
    refine ⟨by decide, ?_, ?_⟩ <;>
      simp only [List.length_cons, List.length_nil, Nat.zero_add, true_iff, Nat.zero_ne_one,
        false_iff, List.cons_ne_nil] <;> omega
  rw [if_neg h3]
  by_cases h4 : a = 0x008c
  · rw [if_pos h4]
    refine ⟨by decide, ?_, ?_⟩ <;>
      simp only [List.length_cons, List.length_nil, Nat.zero_add, true_iff, Nat.zero_ne_one,
        false_iff, List.cons_ne_nil] <;> omega
  rw [if_neg h4]
  by_cases h5 : 0x0090 ≤ a ∧ a ≤ 0x0097
  · rw [if_pos h5]
    refine ⟨by decide, ?_, ?_⟩ <;>
      simp only [List.length_cons, List.length_nil, Nat.zero_add, true_iff, Nat.zero_ne_one,
        false_iff, List.cons_ne_nil] <;> omega
  rw [if_neg h5]
  by_cases h6 : 0x0098 ≤ a ∧ a ≤ 0x009b
  · rw [if_pos h6]
    refine ⟨by decide, ?_, ?_⟩ <;>
      simp only [List.length_cons, List.length_nil, Nat.zero_add, true_iff, Nat.zero_ne_one,
        false_iff, List.cons_ne_nil] <;> omega
  rw [if_neg h6]
  by_cases h7 : 0x4000 ≤ a ∧ a ≤ 0x5fff
  · rw [if_pos h7]
    refine ⟨by decide, ?_, ?_⟩ <;>
      simp only [List.length_cons, List.length_nil, Nat.zero_add, true_iff, Nat.zero_ne_one,
        false_iff, List.cons_ne_nil] <;> omega
  rw [if_neg h7]
  by_cases h8 : 0xb800 ≤ a ∧ a ≤ 0xbfff
  · rw [if_pos h8]
    refine ⟨by decide, ?_, ?_⟩ <;>
      simp only [List.length_cons, List.length_nil, Nat.zero_add, true_iff, Nat.zero_ne_one,
        false_iff, List.cons_ne_nil] <;> omega
  rw [if_neg h8]
  by_cases h9 : 0xc000 ≤ a
  · rw [if_pos h9]
    refine ⟨by decide, ?_, ?_⟩ <;>
      simp only [List.length_cons, List.length_nil, Nat.zero_add, true_iff, Nat.zero_ne_one,
        false_iff, List.cons_ne_nil] <;> omega
  rw [if_neg h9]
  refine ⟨by decide, ?_, ?_⟩ <;>
    simp only [List.length_cons, List.length_nil, Nat.zero_add, true_iff, Nat.zero_ne_one,
      false_iff, List.cons_ne_nil] <;> omega

/-- Witness for C11 amended: the control latch address has the one target. -/
theorem mem_map_decodes_at_most_once_witness :
    (0x008c : Nat) < 0x10000 ∧ decode 0x008c = [Target.latch_w] :=
  ⟨by decide, (mem_map_decodes_at_most_once 0x008c (by decide)).2.trans (by decide)⟩

/-! ## Video RAM window -/

theorem video_ram_masked (a : Nat) (h : 0x4000 ≤ a ∧ a ≤ 0x5fff) :
    a &&& (0xffff ^^^ 0x1800) = 0x4000 + a % 0x800 := by
  have hm : (0xffff ^^^ 0x1800 : Nat) = 2048 * 28 + 2047 := by decide
  rw [hm, and_block_mask]
  have hq : a / 2048 < 32 := by omega
  have hand : ∀ q < 32, q &&& 28 = 4 * (q / 4) := by decide
  rw [hand _ hq]
  omega

theorem video_ram_claims (a : Nat) (h : 0x4000 ≤ a ∧ a ≤ 0x5fff) :
    video_ram_entry.claims a = true := by
  simp only [MapEntry.claims, video_ram_entry, video_ram_masked a h]
  simp
  omega

theorem video_ram_offset (a : Nat) (h : 0x4000 ≤ a ∧ a ≤ 0x5fff) :
    video_ram_entry.offset a = a % 0x800 := by
  simp only [MapEntry.offset, video_ram_entry, video_ram_masked a h]
  omega

/-- C12: bus addresses in 0x4000..0x5fff reach the video RAM byte at the
address modulo 0x800, one of 2048: after a write of `v` through `a1`, a read
through any `a2` equal to `a1` modulo 0x800 returns `v` (so 0x4800 reads what
was written at 0x4000), and `update_row` finds `v` as the character code of
the column with that offset; a read through an `a2` that differs modulo
0x800 reaches another byte and returns what it returned before the write. -/
theorem video_ram_window (d : swtpc8212_device) (a1 a2 v : Nat)
    (h1 : 0x4000 ≤ a1 ∧ a1 ≤ 0x5fff) (h2 : 0x4000 ≤ a2 ∧ a2 ≤ 0x5fff) :
    video_ram_entry.offset a1 = a1 % 0x800 ∧
    video_ram_entry.offset a1 < 2048 ∧
    (a1 % 0x800 = a2 % 0x800 → video_ram_r (video_ram_w d a1 v) a2 = some v) ∧
    (a1 % 0x800 ≠ a2 % 0x800 →
      video_ram_entry.offset a1 ≠ video_ram_entry.offset a2 ∧
      video_ram_r (video_ram_w d a1 v) a2 = video_ram_r d a2) ∧
    (∀ ma c, (ma + c) % 2048 = a1 % 0x800 → cell_code (video_ram_w d a1 v) ma c = v) := by
  have o1 := video_ram_offset a1 h1
  have o2 := video_ram_offset a2 h2
  have c1 := video_ram_claims a1 h1
  have c2 := video_ram_claims a2 h2
  refine ⟨o1, ?_, ?_, ?_, ?_⟩
  · rw [o1]; omega
  · intro he
    simp [video_ram_r, video_ram_w, c1, c2, o1, o2, he]
  · intro hne
    refine ⟨by rw [o1, o2]; exact hne, ?_⟩
    have hne' : ¬ a2 % 0x800 = a1 % 0x800 := fun e => hne e.symm
    simp [video_ram_r, video_ram_w, c1, c2, o1, o2, hne']
  · intro ma c hmc
    rw [cell_code_eq]
    simp [video_ram_w, c1, o1, hmc]

/-- Witness for C12: a byte written at 0x4000 is read back at 0x4800. -/
theorem video_ram_window_witness :
    ((0x4000 : Nat) ≤ 0x4000 ∧ (0x4000 : Nat) ≤ 0x5fff) ∧
    ((0x4000 : Nat) ≤ 0x4800 ∧ (0x4800 : Nat) ≤ 0x5fff) ∧
    video_ram_r (video_ram_w power_on 0x4000 0x41) 0x4800 = some 0x41 :=
  ⟨by decide, by decide,
   (video_ram_window power_on 0x4000 0x4800 0x41 (by decide) (by decide)).2.2.1 (by decide)⟩

/-! ## Keyboard -/

/-- Only a key press and a reset assign the keyboard byte. -/
theorem apply_keeps_kbd_data (o : Op) (d : swtpc8212_device)
    (h : o.is_kbd_put_or_reset = false) : (o.apply d).m_kbd_data = d.m_kbd_data := by
  cases o with
  | kbd_put data => simp [Op.is_kbd_put_or_reset] at h
  | device_reset => simp [Op.is_kbd_put_or_reset] at h
  | latch_w data =>
    simp only [Op.apply, swtpc8212_device.latch_w]
    split <;> rfl
  | pia0_ca2_w state =>
    simp only [Op.apply, swtpc8212_device.pia0_ca2_w]
    split <;> rfl
  | pia1_pa_w data => rfl
  | pia1_ca2_w state =>
    simp only [Op.apply, swtpc8212_device.pia1_ca2_w]
    split <;> rfl
  | rs232_conn_dcd_w state => rfl
  | rs232_conn_dsr_w state => rfl
  | rs232_conn_ri_w state => rfl
  | rs232_conn_cts_w state => rfl
  | rs232_conn_rxd_w state => rfl
  | input_txd state => rfl
  | write_txd state => rfl
  | write_dtr state =>
    simp only [Op.apply, swtpc8212_terminal_device.write_dtr,
      swtpc8212_terminal_device.route_term_dtr]
    split <;> rfl
  | write_rts state => rfl
  | video_ram_w a v =>
    simp only [Op.apply, video_ram_w]
    split <;> rfl
  | device_timer id =>
    simp only [Op.apply, swtpc8212_device.device_timer]
    split <;> rfl
  | run_until t =>
    simp only [Op.apply, swtpc8212_device.run_until, swtpc8212_device.device_timer]
    split
    · rfl
    · split
      · split <;> rfl
      · rfl

theorem run_keeps_kbd_data (ops : List Op) (d : swtpc8212_device)
    (h : ∀ o ∈ ops, o.is_kbd_put_or_reset = false) : (run d ops).m_kbd_data = d.m_kbd_data := by
  induction ops generalizing d with
  | nil => rfl
  | cons o ops ih =>
    have ho := h o (List.mem_cons_self o ops)
    have hr := ih (o.apply d) (fun o' ho' => h o' (List.mem_cons_of_mem o ho'))
    simp only [run, List.foldl_cons] at hr ⊢
    rw [hr, apply_keeps_kbd_data o d ho]

theorem kbd_put_log (d : swtpc8212_device) (data : Nat) :
    (d.kbd_put data).log = d.log ++
      [(d.now, Call.pia0_cb1_w ASSERT_LINE), (d.now, Call.pia0_cb1_w CLEAR_LINE),
       (d.now, Call.pia0_cb1_w ASSERT_LINE)] := by
  simp [swtpc8212_device.kbd_put, swtpc8212_device.call]

/-- C13: for every byte `data`, `kbd_put(data)` stores it, so that
`pia0_pb_r` returns it at once and after any sequence of events that holds
neither a key press nor a reset; it makes exactly three calls, driving PIA0
CB1 to ASSERT, CLEAR, ASSERT in this order; the latch, the printer byte, the
printer ready flag, the bell and its timer are as before. -/
theorem kbd_put_stores_and_strobes (d : swtpc8212_device) (data : Nat) (_hd : data < 256)
    (ops : List Op) (hops : ∀ o ∈ ops, o.is_kbd_put_or_reset = false) :
    (d.kbd_put data).pia0_pb_r = data ∧
    (run (d.kbd_put data) ops).pia0_pb_r = data ∧
    emitted d (d.kbd_put data) =
      [Call.pia0_cb1_w ASSERT_LINE, Call.pia0_cb1_w CLEAR_LINE, Call.pia0_cb1_w ASSERT_LINE] ∧
    (d.kbd_put data).log = d.log ++ emitted_at d (d.kbd_put data) ∧
    (d.kbd_put data).m_latch_data = d.m_latch_data ∧
    (d.kbd_put data).m_printer_data = d.m_printer_data ∧
    (d.kbd_put data).m_printer_data_ready = d.m_printer_data_ready ∧
    bell_on (d.kbd_put data) = bell_on d ∧
    (d.kbd_put data).m_bell_timer = d.m_bell_timer := by
  have hl := kbd_put_log d data
  refine ⟨rfl, ?_, ?_, ?_, rfl, rfl, rfl, ?_, rfl⟩
  · have := run_keeps_kbd_data ops (d.kbd_put data) hops
    simpa [swtpc8212_device.pia0_pb_r] using this
  · rw [emitted_append d _ _ hl]
    rfl
  · rw [emitted_at_append d _ _ hl]
    exact hl
  · simp only [bell_on]
    rw [hl, last_driven_append_list]
    rfl

/-- Witness for C13: the key 0x41 on the reset terminal, followed by a latch
write and a bell strobe. -/
theorem kbd_put_stores_and_strobes_witness :
    (0x41 : Nat) < 256 ∧
    (∀ o ∈ [Op.latch_w 0x80, Op.pia0_ca2_w 0], o.is_kbd_put_or_reset = false) ∧
    (run ((swtpc8212_terminal_device.device_reset power_on).kbd_put 0x41)
      [Op.latch_w 0x80, Op.pia0_ca2_w 0]).pia0_pb_r = 0x41 :=
  ⟨by decide, by decide,
   (kbd_put_stores_and_strobes (swtpc8212_terminal_device.device_reset power_on) 0x41
      (by decide) [Op.latch_w 0x80, Op.pia0_ca2_w 0] (by decide)).2.1⟩

/-! ## Latch and character width -/

/-- A write of the control latch sets the CRTC character width from bit 7 of
the byte it stores. -/
theorem latch_w_sets_char_width (d : swtpc8212_device) (data : Nat) :
    (d.latch_w data).m_latch_data = data ∧
    char_width (d.latch_w data) = some (if BIT data 7 = 0 then 9 else 8) := by
  by_cases h : BIT data 7 = 0
  · simp [swtpc8212_device.latch_w, swtpc8212_device.call, char_width, h,
      last_driven_append, sel_char_width]
  · simp [swtpc8212_device.latch_w, swtpc8212_device.call, char_width, h,
      last_driven_append, sel_char_width]

/-- The reset stores 0x1f in the latch and makes no call on the CRTC. -/
theorem device_reset_keeps_char_width (d : swtpc8212_device) :
    (swtpc8212_terminal_device.device_reset d).m_latch_data = 0x1f ∧
    char_width (swtpc8212_terminal_device.device_reset d) = char_width d := by
  refine ⟨?_, ?_⟩
  · by_cases h : d.m_one_stop_bit = 0 <;>
      simp [swtpc8212_terminal_device.device_reset, swtpc8212_device.device_reset,
        swtpc8212_terminal_device.output_rxd, swtpc8212_terminal_device.output_dcd,
        swtpc8212_terminal_device.output_dsr, swtpc8212_terminal_device.output_cts,
        swtpc8212_device.rs232_conn_cts_w, swtpc8212_device.call, h]
  simp only [char_width]
  rw [terminal_device_reset_log, last_driven_append_list]
  rfl

/-- C14: the code at the failing input. From the configured terminal, the
latch write 0x80 followed by a reset leaves bit 7 of the stored latch at 0
(the latch holds 0x1f) while the CRTC character width is still 8, not 9; the
two agreed before the reset. -/
theorem latch_and_char_width_disagree_after_reset :
    (∀ o ∈ [Op.latch_w 0x80, Op.device_reset], o.is_latch_w_or_reset = true) ∧
    char_width configured = some 9 ∧
    BIT (run configured [Op.latch_w 0x80]).m_latch_data 7 = 1 ∧
    char_width (run configured [Op.latch_w 0x80]) = some 8 ∧
    (run configured [Op.latch_w 0x80, Op.device_reset]).m_latch_data = 0x1f ∧
    BIT (run configured [Op.latch_w 0x80, Op.device_reset]).m_latch_data 7 = 0 ∧
    char_width (run configured [Op.latch_w 0x80, Op.device_reset]) = some 8 := by
  refine ⟨by decide, by decide, by decide, by decide, by decide, by decide, by decide⟩

end Swtpc8212
